import Mathlib

/-!
# Qt3D core services and scene loader: a verification development

Shallow embedding of

* `src/core/services/qservicelocator.cpp` (`Qt3D::QServiceLocator`),
* `src/render/io/qsceneloader.cpp` (`Qt3DRender::QSceneLoader`), and
* the backend peers `Qt3DRender::Render::Geometry` and
  `Qt3DInput::Input::ButtonAxisInput`, of which only the tests
  `tst_geometry.cpp` and `tst_buttonaxisinput.cpp` are among the sources.

Pointers are abstract addresses, the pimpl objects become plain structures that
are passed explicitly, and `int` values are unbounded integers (no count in
this development comes near the 32-bit range).
-/

namespace Qt3D

/-! ## Service locator: data model -/

/-- A value of type `QAbstractServiceProvider *`.  The two built-in members
`m_nullSystemInfo` and `m_nullOpenGLInfo` of `QServiceLocatorPrivate` have
addresses of their own; every other provider object is named by a number. -/
inductive ProviderPtr where
  | null
  | nullSystemInfo
  | nullOpenGLInfo
  | object (addr : Nat)
  deriving DecidableEq, Repr

/-- Modelled from the spec: the enumeration `QServiceLocator::ServiceType` is declared in
`qservicelocator.h`, which is not among the sources.  The two reserved keys are
the enumerators that precede `DefaultServiceCount`. -/
def SystemInformation : Int := 0

/-- Modelled from the spec: second enumerator of `QServiceLocator::ServiceType`. -/
def OpenGLInformation : Int := 1

/-- Modelled from the spec: the reserved-key count, "fixed constant, currently 2". -/
def DefaultServiceCount : Int := 2

/-- The container `QHash<int, QAbstractServiceProvider *>`, as the list of its
items.  Every operation below keeps at most one item per key. -/
abbrev ServiceHash := List (Int × ProviderPtr)

namespace QHash

/-- The call `QHash::value(key, defaultValue)`: the value stored under `key`, or
`defaultValue` when the hash has no item with that key. -/
def value : ServiceHash → Int → ProviderPtr → ProviderPtr
  | [], _, defaultValue => defaultValue
  | (k, v) :: rest, key, defaultValue =>
      if k = key then v else value rest key defaultValue

/-- The call `QHash::contains(key)`. -/
def contains : ServiceHash → Int → Bool
  | [], _ => false
  | (k, _) :: rest, key => if k = key then true else contains rest key

/-- The call `QHash::insert(key, value)`: an item that already has the key gets
the new value, otherwise a new item is added. -/
def insert : ServiceHash → Int → ProviderPtr → ServiceHash
  | [], key, v => [(key, v)]
  | (k, w) :: rest, key, v =>
      if k = key then (key, v) :: rest else (k, w) :: insert rest key v

/-- The items left by `QHash::remove(key)`. -/
def erase (h : ServiceHash) (key : Int) : ServiceHash :=
  h.filter (fun kv => decide (kv.1 ≠ key))

/-- The call `QHash::remove(key)`: the remaining items and the number of items
removed. -/
def remove (h : ServiceHash) (key : Int) : ServiceHash × Int :=
  (erase h key, (h.length : Int) - ((erase h key).length : Int))

/-- The call `QHash::size()`. -/
def size (h : ServiceHash) : Int := (h.length : Int)

end QHash

/-- The class `QServiceLocatorPrivate`.  The two null services are the
constructors `ProviderPtr.nullSystemInfo` and `ProviderPtr.nullOpenGLInfo`. -/
structure QServiceLocatorPrivate where
  m_services : ServiceHash
  m_nonNullDefaultServices : Int
  deriving DecidableEq, Repr

namespace QServiceLocator

/-- The constructor `QServiceLocator::QServiceLocator()`. -/
def fresh : QServiceLocatorPrivate :=
  { m_services := [], m_nonNullDefaultServices := 0 }

/-- The method `QServiceLocator::registerServiceProvider`. -/
def registerServiceProvider (d : QServiceLocatorPrivate) (serviceType : Int)
    (provider : ProviderPtr) : QServiceLocatorPrivate :=
  let services := QHash.insert d.m_services serviceType provider
  if serviceType < DefaultServiceCount then
    { m_services := services
      m_nonNullDefaultServices := d.m_nonNullDefaultServices + 1 }
  else
    { m_services := services
      m_nonNullDefaultServices := d.m_nonNullDefaultServices }

/-- The method `QServiceLocator::unregisterServiceProvider`. -/
def unregisterServiceProvider (d : QServiceLocatorPrivate) (serviceType : Int) :
    QServiceLocatorPrivate :=
  let r := QHash.remove d.m_services serviceType
  if serviceType < DefaultServiceCount then
    { m_services := r.1
      m_nonNullDefaultServices := d.m_nonNullDefaultServices - r.2 }
  else
    { m_services := r.1
      m_nonNullDefaultServices := d.m_nonNullDefaultServices }

/-- The method `QServiceLocator::serviceCount`. -/
def serviceCount (d : QServiceLocatorPrivate) : Int :=
  DefaultServiceCount + QHash.size d.m_services - d.m_nonNullDefaultServices

/-- The method `QServiceLocator::systemInformation`. -/
def systemInformation (d : QServiceLocatorPrivate) : ProviderPtr :=
  QHash.value d.m_services SystemInformation ProviderPtr.nullSystemInfo

/-- The method `QServiceLocator::openGLInformation`. -/
def openGLInformation (d : QServiceLocatorPrivate) : ProviderPtr :=
  QHash.value d.m_services OpenGLInformation ProviderPtr.nullOpenGLInfo

/-- The method `QServiceLocator::_q_getServiceHelper`. -/
def _q_getServiceHelper (d : QServiceLocatorPrivate) (type : Int) : ProviderPtr :=
  if type = SystemInformation then systemInformation d
  else if type = OpenGLInformation then openGLInformation d
  else QHash.value d.m_services type ProviderPtr.null

/-- One call on the registration interface of the locator. -/
inductive Call where
  | register (serviceType : Int) (provider : ProviderPtr)
  | unregister (serviceType : Int)
  deriving DecidableEq, Repr

/-- Effect of one call. -/
def step (d : QServiceLocatorPrivate) : Call → QServiceLocatorPrivate
  | Call.register t p => registerServiceProvider d t p
  | Call.unregister t => unregisterServiceProvider d t

/-- Effect of a sequence of calls, first call first. -/
def run (d : QServiceLocatorPrivate) (calls : List Call) : QServiceLocatorPrivate :=
  calls.foldl step d

/-- A key is reserved when it is one of the two built-in service types. -/
def isReserved (t : Int) : Bool :=
  decide (t = SystemInformation) || decide (t = OpenGLInformation)

/-- Number of keys currently registered (the registry has one item per key). -/
def registeredKeys (d : QServiceLocatorPrivate) : Int :=
  ((d.m_services.map Prod.fst).dedup.length : Int)

/-- Number of currently registered keys that are reserved. -/
def registeredReservedKeys (d : QServiceLocatorPrivate) : Int :=
  (((d.m_services.map Prod.fst).dedup.filter isReserved).length : Int)

/-- The count that the specification gives: the reserved-key count plus the
registered keys minus the registered keys that are reserved. -/
def specServiceCount (d : QServiceLocatorPrivate) : Int :=
  2 + registeredKeys d - registeredReservedKeys d

end QServiceLocator

end Qt3D

/-! ## Scene loader: data model -/

namespace Qt3DRender

/-- A value of type `QNode *` or `QEntity *`: `none` is the null pointer, `some a`
the object at address `a`. -/
abbrev NodePtr := Option Nat

/-- A value of type `Qt3DCore::QNodeId`. -/
abbrev QNodeId := Nat

/-- Modelled from the spec: the enumeration `QSceneLoader::Status` is declared in
`qsceneloader.h`, which is not among the sources; the spec lists the values
Loading, Ready, Error and None. -/
inductive Status where
  | None
  | Loading
  | Ready
  | Error
  deriving DecidableEq, Repr

/-- Modelled from the spec: the change kinds of `Qt3DCore::ChangeFlag`
(`qscenechange.h` is not among the sources), with the names the sources use for
the three kinds they mention. -/
inductive ChangeFlag where
  | NodeCreated
  | NodeDeleted
  | NodeUpdated
  | NodeAdded
  | NodeRemoved
  deriving DecidableEq, Repr

/-- The payload of a change, a `QVariant`: nothing, an entity pointer, a node
identifier, a boolean, a `float` (named by the rational number it stands for; no
arithmetic is done on it) or a `QVector<int>`. -/
inductive QVariant where
  | invalid
  | entity (p : NodePtr)
  | nodeId (id : QNodeId)
  | boolean (b : Bool)
  | float (x : Rat)
  | intVector (v : List Int)
  deriving DecidableEq, Repr

/-- The conversion `QVariant::value<Qt3DCore::QEntity *>()`: the stored pointer,
or the null pointer when the variant holds no entity pointer. -/
def QVariant.toEntity : QVariant → NodePtr
  | QVariant.entity p => p
  | _ => none

/-- The conversion `QVariant::value<Qt3DCore::QNodeId>()`: the stored identifier,
or the null identifier `QNodeId()` (the number 0) otherwise. -/
def QVariant.toNodeId : QVariant → QNodeId
  | QVariant.nodeId id => id
  | _ => 0

/-- The conversion `QVariant::toBool()` of a boolean payload. -/
def QVariant.toBool : QVariant → Bool
  | QVariant.boolean b => b
  | _ => false

/-- The conversion `QVariant::toFloat()` of a float payload. -/
def QVariant.toFloat : QVariant → Rat
  | QVariant.float x => x
  | _ => 0

/-- The conversion `QVariant::value<QVector<int>>()`. -/
def QVariant.toIntVector : QVariant → List Int
  | QVariant.intVector v => v
  | _ => []

/-- The record `Qt3DCore::QScenePropertyChange` as far as the loader reads it. -/
structure QScenePropertyChange where
  type : ChangeFlag
  propertyName : String
  value : QVariant
  deriving DecidableEq, Repr

/-- The class `Qt3DCore::QScene` as far as the loader uses it (`qscene_p.h` is not
among the sources): its two queries are parameters, read at the moment the
loader asks, and `isEntity` is the dynamic type test behind
`qobject_cast<QEntity *>`. -/
structure QScene where
  entitiesForComponent : QNodeId → List QNodeId
  lookupNode : QNodeId → NodePtr
  isEntity : Nat → Bool

/-- The cast `qobject_cast<QEntity *>` of a node pointer. -/
def QScene.castToEntity (scene : QScene) : NodePtr → NodePtr
  | some a => if scene.isEntity a then some a else none
  | none => none

/-- What a loader operation does to the rest of the program, in program order. -/
inductive Effect where
  | deleted (node : Nat)
  | reparented (node : Nat) (parent : NodePtr)
  | statusChanged (status : Status)
  | sourceChanged (source : String)
  deriving DecidableEq, Repr

/-- The object tree around the loader: the parent of every node, and the
effects performed so far (oldest first). -/
structure World where
  parentOf : Nat → NodePtr
  log : List Effect

namespace World

/-- The statement `delete node`: the node leaves its parent and is destroyed, and
so is everything below it (the destructor of a QObject deletes its children).
The log gets the one `delete` that the program runs; the nodes below keep their
parent links, so that `freed` finds them under the deleted node. -/
def deleteNode (w : World) (node : Nat) : World :=
  { parentOf := fun n => if n = node then none else w.parentOf n
    log := w.log ++ [Effect.deleted node] }

/-- The call `node->setParent(parent)`. -/
def setParent (w : World) (node : Nat) (parent : NodePtr) : World :=
  { parentOf := fun n => if n = node then parent else w.parentOf n
    log := w.log ++ [Effect.reparented node parent] }

/-- The statement `emit signal`. -/
def emit (w : World) (signal : Effect) : World :=
  { parentOf := w.parentOf
    log := w.log ++ [signal] }

/-- A node is destroyed once `delete` has run on it. -/
def destroyed (w : World) (node : Nat) : Bool :=
  w.log.contains (Effect.deleted node)

/-- The ancestor of a node `steps` levels up: the node itself for 0 steps, the
null pointer when the chain of parents ends earlier. -/
def ancestorAt (w : World) : Nat → Nat → NodePtr
  | 0, node => some node
  | steps + 1, node =>
      match w.parentOf node with
      | some parent => ancestorAt w steps parent
      | none => none

/-- The node is `root` itself or lies below `root` in the object tree. -/
def inSubTree (w : World) (root node : Nat) : Prop :=
  ∃ steps, w.ancestorAt steps node = some root

/-- The memory of the node is gone: `delete` has run on the node or on a node
above it.  Dereferencing such a node is a use after free. -/
def freed (w : World) (node : Nat) : Prop :=
  ∃ root, Effect.deleted root ∈ w.log ∧ w.inSubTree root node

end World

/-- The class `QSceneLoaderPrivate`, with the identifier and scene pointer that
it inherits from `QNodePrivate`. -/
structure QSceneLoaderPrivate where
  m_status : Status
  m_subTreeRoot : NodePtr
  m_source : String
  m_id : QNodeId
  m_scene : Option QScene

namespace QSceneLoader

/-- The constructor `QSceneLoaderPrivate::QSceneLoaderPrivate()`, for a component
with identifier `id` that lives in `scene`. -/
def fresh (id : QNodeId) (scene : Option QScene) : QSceneLoaderPrivate :=
  { m_status := Status.Loading
    m_subTreeRoot := none
    m_source := ""
    m_id := id
    m_scene := scene }

/-- The method `QSceneLoader::status`. -/
def status (d : QSceneLoaderPrivate) : Status := d.m_status

/-- The method `QSceneLoader::source`. -/
def source (d : QSceneLoaderPrivate) : String := d.m_source

/-- The method `QSceneLoader::setStatus`. -/
def setStatus (d : QSceneLoaderPrivate) (w : World) (status : Status) :
    QSceneLoaderPrivate × World :=
  if d.m_status ≠ status then
    ({ d with m_status := status }, w.emit (Effect.statusChanged status))
  else
    (d, w)

/-- The method `QSceneLoader::setSource`. -/
def setSource (d : QSceneLoaderPrivate) (w : World) (arg : String) :
    QSceneLoaderPrivate × World :=
  if d.m_source ≠ arg then
    ({ d with m_source := arg }, w.emit (Effect.sourceChanged arg))
  else
    (d, w)

/-- Lines 86 to 89 of `sceneChangeEvent`: an existing sub tree is deleted and the
member is reset. -/
def dropSubTree (d : QSceneLoaderPrivate) (w : World) : QSceneLoaderPrivate × World :=
  match d.m_subTreeRoot with
  | some root => ({ d with m_subTreeRoot := none }, w.deleteNode root)
  | none => (d, w)

/-- The method `QSceneLoader::sceneChangeEvent`, statement by statement.  The
result is `none` where the call stops: the scene pointer is null when it is
dereferenced, or `Q_ASSERT(entities.size() == 1)` fails.  The embedding does not
stop where line 99 calls `setParent` on a node that is already destroyed (by
line 87 of the same call, or earlier), which is a use after free in C++: both
effects go to the log in program order, and `graftsFreedNode` below says for
which calls this happens.  What the result says about the loader and the tree
describes the C++ program only for calls without such a use after free. -/
def sceneChangeEvent (d : QSceneLoaderPrivate) (w : World) (e : QScenePropertyChange) :
    Option (QSceneLoaderPrivate × World) :=
  if e.type = ChangeFlag.NodeUpdated then
    if e.propertyName = "scene" then
      let dw := dropSubTree d w
      match e.value.toEntity with
      | some subTreeRoot =>
          match dw.1.m_scene with
          | none => none
          | some scene =>
              match scene.entitiesForComponent dw.1.m_id with
              | [parentEntityId] =>
                  let parentEntity := scene.castToEntity (scene.lookupNode parentEntityId)
                  let w2 := dw.2.setParent subTreeRoot parentEntity
                  let d2 := { dw.1 with m_subTreeRoot := some subTreeRoot }
                  some (setStatus d2 w2 Status.Ready)
              | _ => none
      | none => some (setStatus dw.1 dw.2 Status.Error)
    else
      some (d, w)
  else
    some (d, w)

end QSceneLoader

end Qt3DRender

/-! ## Scene loader: a small concrete configuration -/

namespace Qt3DRender

namespace QSceneLoader

/-- A scene in which the component 10 is attached to the entity with identifier
20, which `lookupNode` resolves to the entity at address 200. -/
def exampleScene : QScene :=
  { entitiesForComponent := fun id => if id = 10 then [20] else []
    lookupNode := fun id => if id = 20 then some 200 else none
    isEntity := fun a => decide (a = 200) }

/-- A loader with identifier 10 in `exampleScene` that is Ready and holds the sub
tree rooted at address 3. -/
def exampleLoader : QSceneLoaderPrivate :=
  { m_status := Status.Ready
    m_subTreeRoot := some 3
    m_source := "a.obj"
    m_id := 10
    m_scene := some exampleScene }

/-- An object tree in which the node 3 is a child of the entity 200, with nothing
logged yet. -/
def exampleWorld : World :=
  { parentOf := fun n => if n = 3 then some 200 else none
    log := [] }

/-- The change that the backend sends when a load has finished: kind NodeUpdated,
property "scene", the loaded entity (or the null pointer) as value. -/
def sceneUpdate (subTree : NodePtr) : QScenePropertyChange :=
  { type := ChangeFlag.NodeUpdated
    propertyName := "scene"
    value := QVariant.entity subTree }

end QSceneLoader

end Qt3DRender

/-! ## Service locator: disciplined call sequences -/

namespace Qt3D

namespace QServiceLocator

/-- A call sequence is disciplined, from the state `d` on, when every key passed
to `registerServiceProvider` is non-negative and has no provider registered at
the time of the call. -/
def disciplined : QServiceLocatorPrivate → List Call → Bool
  | _, [] => true
  | d, Call.register t p :: rest =>
      decide (0 ≤ t) && !QHash.contains d.m_services t
        && disciplined (registerServiceProvider d t p) rest
  | d, Call.unregister t :: rest => disciplined (unregisterServiceProvider d t) rest

/-- Number of currently registered keys that are not reserved. -/
def registeredOtherKeys (d : QServiceLocatorPrivate) : Int :=
  (((d.m_services.map Prod.fst).dedup.filter (fun k => !isReserved k)).length : Int)

end QServiceLocator

end Qt3D

/-! ## Scene loader: call sequences and attached sub trees -/

namespace Qt3DRender

namespace QSceneLoader

/-- The scene knows exactly one entity for the component of the loader, which is
what `Q_ASSERT(entities.size() == 1)` asks for. -/
def attachedToOne (d : QSceneLoaderPrivate) : Bool :=
  match d.m_scene with
  | some scene => decide ((scene.entitiesForComponent d.m_id).length = 1)
  | none => false

/-- The change is a "scene" update: kind NodeUpdated and property name "scene". -/
def isSceneUpdate (e : QScenePropertyChange) : Bool :=
  decide (e.type = ChangeFlag.NodeUpdated) && decide (e.propertyName = "scene")

/-- The call `sceneChangeEvent(e)` uses a node after it has been freed: `e` is a
"scene" update with a non-null payload, and when line 99 calls `setParent` on
the payload, after lines 86 to 89 have run, the payload is destroyed. -/
def graftsFreedNode (d : QSceneLoaderPrivate) (w : World) (e : QScenePropertyChange) : Prop :=
  isSceneUpdate e = true ∧ ∃ S, e.value.toEntity = some S ∧ (dropSubTree d w).2.freed S

/-- An object tree in which the node 3 is a child of the entity 200 and the node
4 is a child of the node 3, with nothing logged yet. -/
def exampleDeepWorld : World :=
  { parentOf := fun n => if n = 3 then some 200 else if n = 4 then some 3 else none
    log := [] }

/-- One call on a loader: a change delivered to `sceneChangeEvent`, or `setSource`. -/
inductive LoaderCall where
  | sceneChange (e : QScenePropertyChange)
  | setSource (arg : String)
  deriving DecidableEq, Repr

/-- Effect of one call on the loader and the object tree. -/
def stepCall (d : QSceneLoaderPrivate) (w : World) :
    LoaderCall → Option (QSceneLoaderPrivate × World)
  | LoaderCall.sceneChange e => sceneChangeEvent d w e
  | LoaderCall.setSource arg => some (setSource d w arg)

/-- Effect of a sequence of calls, first call first; `none` as soon as one call
has no defined continuation. -/
def runCalls (d : QSceneLoaderPrivate) (w : World) :
    List LoaderCall → Option (QSceneLoaderPrivate × World)
  | [] => some (d, w)
  | c :: rest =>
      match stepCall d w c with
      | some dw => runCalls dw.1 dw.2 rest
      | none => none

/-- How one effect changes the list of sub trees attached by the loader: a
re-parented node joins the list, a deleted node leaves it. -/
def attachStep (attached : List Nat) : Effect → List Nat
  | Effect.reparented node _ => if node ∈ attached then attached else attached ++ [node]
  | Effect.deleted node => attached.filter (fun n => decide (n ≠ node))
  | _ => attached

/-- The sub trees that are attached after the effects of `log` have happened. -/
def attachedAfter (log : List Effect) : List Nat :=
  log.foldl attachStep []

/-- Number of `statusChanged` notifications in a log. -/
def statusNotifications (log : List Effect) : Nat :=
  (log.filter (fun x => match x with
    | Effect.statusChanged _ => true
    | _ => false)).length

/-- The effects of lines 86 to 89 of `sceneChangeEvent` for a given old root. -/
def dropLog : NodePtr → List Effect
  | some root => [Effect.deleted root]
  | none => []

/-- The effects of lines 93 to 101 of `sceneChangeEvent` for a given payload. -/
def graftLog : NodePtr → NodePtr → List Effect
  | some subTreeRoot, parent => [Effect.reparented subTreeRoot parent]
  | none, _ => []

/-- The effects of `setStatus` for a given old and new status. -/
def statusLog (old new : Status) : List Effect :=
  if old = new then [] else [Effect.statusChanged new]

/-- The argument of `setStatus` on line 104 of `sceneChangeEvent`. -/
def loadStatus : NodePtr → Status
  | some _ => Status.Ready
  | none => Status.Error

/-- The loader holds `root` and `log` is what has happened: at every moment of the
log at most one sub tree was attached, the sub tree attached at the end is the
one the loader holds, and every node that was ever grafted is the one the loader
holds or has been deleted. -/
def oneAttached (root : NodePtr) (log : List Effect) : Prop :=
  (∀ pre, pre <+: log → (attachedAfter pre).length ≤ 1)
  ∧ attachedAfter log = root.toList
  ∧ ∀ n p, Effect.reparented n p ∈ log → root = some n ∨ Effect.deleted n ∈ log

/-- The loader has the status of a finished load: Ready or Error, and Ready
exactly when it holds a sub tree. -/
def loadFinished (d : QSceneLoaderPrivate) : Prop :=
  (d.m_status = Status.Ready ∨ d.m_status = Status.Error)
  ∧ (d.m_status = Status.Ready ↔ d.m_subTreeRoot ≠ none)

/-- An object tree without nodes, with nothing logged. -/
def emptyWorld : World :=
  { parentOf := fun _ => none
    log := [] }

end QSceneLoader

/-! ## Geometry backend peer -/

/-- Modelled from the spec: the frontend class `Qt3DRender::QAttribute` is not among the
sources; a frontend node is known to the backend by its identifier only. -/
structure QAttribute where
  id : QNodeId
  deriving DecidableEq, Repr

/-- Modelled from the spec: the frontend class `Qt3DRender::QGeometry` is not among the
sources.  It has an identifier, the attributes in the order of `addAttribute`,
and the position attribute of its bounding volume specifier (none when unset). -/
structure QGeometry where
  id : QNodeId
  attributes : List QAttribute
  positionAttribute : Option QAttribute
  deriving DecidableEq, Repr

/-- The helper `Qt3DCore::qIdForNode`: the identifier of the node, or the null
identifier for a null pointer. -/
def qIdForNode : Option QAttribute → QNodeId
  | some a => a.id
  | none => 0

namespace Render

/-- Modelled from the spec: the backend class `Qt3DRender::Render::Geometry` is not among
the sources, only its test `tst_geometry.cpp` is.  The peer holds the peer
identifier, the ordered list of attribute identifiers, the bounding position
attribute identifier and the dirty flag. -/
structure Geometry where
  m_peerId : QNodeId
  m_attributes : List QNodeId
  m_geometryDirty : Bool
  m_boundingPositionAttribute : QNodeId
  deriving DecidableEq, Repr

namespace Geometry

/-- Modelled from the spec: a freshly constructed Geometry peer; `tst_geometry.cpp`
checks that it is not dirty, has no attributes and null identifiers. -/
def fresh : Geometry :=
  { m_peerId := 0
    m_attributes := []
    m_geometryDirty := false
    m_boundingPositionAttribute := 0 }

/-- The accessor `Geometry::peerId`. -/
def peerId (g : Geometry) : QNodeId := g.m_peerId

/-- The accessor `Geometry::attributes`. -/
def attributes (g : Geometry) : List QNodeId := g.m_attributes

/-- The accessor `Geometry::isDirty`. -/
def isDirty (g : Geometry) : Bool := g.m_geometryDirty

/-- The accessor `Geometry::boundingPositionAttribute`. -/
def boundingPositionAttribute (g : Geometry) : QNodeId := g.m_boundingPositionAttribute

/-- The method `Geometry::unsetDirty`, used by `tst_geometry.cpp`. -/
def unsetDirty (g : Geometry) : Geometry := { g with m_geometryDirty := false }

/-- Modelled from the spec: `Geometry::updateFromPeer`; "on receiving a full snapshot, the
peer copies every role-relevant attribute from the frontend node verbatim and
marks itself not-dirty". -/
def updateFromPeer (g : Geometry) (peer : QGeometry) : Geometry :=
  { g with
    m_attributes := peer.attributes.map QAttribute.id
    m_geometryDirty := false
    m_boundingPositionAttribute := qIdForNode peer.positionAttribute }

/-- Modelled from the spec: `setPeer` of the backend node takes the identifier of the
frontend node as peer identifier and then runs `updateFromPeer`. -/
def setPeer (g : Geometry) (peer : QGeometry) : Geometry :=
  updateFromPeer { g with m_peerId := peer.id } peer

/-- Modelled from the spec: `Geometry::sceneChangeEvent`.  NodeAdded of "attribute"
appends the identifier and sets dirty; NodeRemoved of "attribute" removes all
occurrences of the identifier and sets dirty; NodeUpdated of
"boundingVolumeSpecifierPositionAttribute" replaces the mirrored identifier
and leaves dirty as it is; every other change is ignored. -/
def sceneChangeEvent (g : Geometry) (e : QScenePropertyChange) : Geometry :=
  match e.type with
  | ChangeFlag.NodeAdded =>
      if e.propertyName = "attribute" then
        { g with
          m_attributes := g.m_attributes ++ [e.value.toNodeId]
          m_geometryDirty := true }
      else g
  | ChangeFlag.NodeRemoved =>
      if e.propertyName = "attribute" then
        { g with
          m_attributes := g.m_attributes.filter (fun a => decide (a ≠ e.value.toNodeId))
          m_geometryDirty := true }
      else g
  | ChangeFlag.NodeUpdated =>
      if e.propertyName = "boundingVolumeSpecifierPositionAttribute" then
        { g with m_boundingPositionAttribute := e.value.toNodeId }
      else g
  | _ => g

/-- Modelled from the spec: `Geometry::cleanup` "resets every mirrored field to its
default/empty value and clears dirty", so that the peer "ends in exactly the
same state as a freshly constructed peer". -/
def cleanup (_g : Geometry) : Geometry :=
  { m_peerId := 0
    m_attributes := []
    m_geometryDirty := false
    m_boundingPositionAttribute := 0 }

end Geometry

end Render

end Qt3DRender

/-! ## Button axis input backend peer -/

namespace Qt3DInput

open Qt3DRender

/-- Modelled from the spec: the frontend class `Qt3DInput::QButtonAxisInput` is not among
the sources.  It has an identifier, the enabled flag, the buttons, the scale and
the identifier of its source device (0 when there is none). -/
structure QButtonAxisInput where
  id : QNodeId
  enabled : Bool
  buttons : List Int
  scale : Rat
  sourceDevice : QNodeId
  deriving DecidableEq, Repr

namespace Input

/-- Modelled from the spec: the backend class `Qt3DInput::Input::ButtonAxisInput` is not
among the sources, only its test `tst_buttonaxisinput.cpp` is.  The peer holds the
peer identifier and mirrors enabled, buttons, scale and source device. -/
structure ButtonAxisInput where
  m_peerId : QNodeId
  m_enabled : Bool
  m_buttons : List Int
  m_scale : Rat
  m_sourceDevice : QNodeId
  deriving DecidableEq, Repr

namespace ButtonAxisInput

/-- Modelled from the spec: a freshly constructed ButtonAxisInput peer;
`tst_buttonaxisinput.cpp` checks scale 0, no buttons, disabled, null identifiers. -/
def fresh : ButtonAxisInput :=
  { m_peerId := 0
    m_enabled := false
    m_buttons := []
    m_scale := 0
    m_sourceDevice := 0 }

/-- The accessor `ButtonAxisInput::peerId`. -/
def peerId (b : ButtonAxisInput) : QNodeId := b.m_peerId

/-- The accessor `ButtonAxisInput::isEnabled`. -/
def isEnabled (b : ButtonAxisInput) : Bool := b.m_enabled

/-- The accessor `ButtonAxisInput::buttons`. -/
def buttons (b : ButtonAxisInput) : List Int := b.m_buttons

/-- The accessor `ButtonAxisInput::scale`. -/
def scale (b : ButtonAxisInput) : Rat := b.m_scale

/-- The accessor `ButtonAxisInput::sourceDevice`. -/
def sourceDevice (b : ButtonAxisInput) : QNodeId := b.m_sourceDevice

/-- Modelled from the spec: `simulateInitialization` of the test hands the full snapshot
of the frontend node to the peer, which copies every attribute verbatim. -/
def simulateInitialization (frontend : QButtonAxisInput) (_b : ButtonAxisInput) :
    ButtonAxisInput :=
  { m_peerId := frontend.id
    m_enabled := frontend.enabled
    m_buttons := frontend.buttons
    m_scale := frontend.scale
    m_sourceDevice := frontend.sourceDevice }

/-- Modelled from the spec: `ButtonAxisInput::sceneChangeEvent`.  A property update
named "buttons", "scale", "enabled" or "sourceDevice" replaces the mirrored field
with the payload; every other change is ignored. -/
def sceneChangeEvent (b : ButtonAxisInput) (e : QScenePropertyChange) : ButtonAxisInput :=
  match e.type with
  | ChangeFlag.NodeUpdated =>
      if e.propertyName = "buttons" then { b with m_buttons := e.value.toIntVector }
      else if e.propertyName = "scale" then { b with m_scale := e.value.toFloat }
      else if e.propertyName = "enabled" then { b with m_enabled := e.value.toBool }
      else if e.propertyName = "sourceDevice" then { b with m_sourceDevice := e.value.toNodeId }
      else b
  | _ => b

/-- Modelled from the spec: `ButtonAxisInput::cleanup` "resets every mirrored field to its
default/empty value", so that the peer "ends in exactly the same state as a
freshly constructed peer". -/
def cleanup (_b : ButtonAxisInput) : ButtonAxisInput :=
  { m_peerId := 0
    m_enabled := false
    m_buttons := []
    m_scale := 0
    m_sourceDevice := 0 }

/-- The change that `tst_buttonaxisinput.cpp` builds with `QPropertyUpdatedChange`:
a property update with the given name and value. -/
def propertyUpdated (name : String) (value : QVariant) : QScenePropertyChange :=
  { type := ChangeFlag.NodeUpdated
    propertyName := name
    value := value }

end ButtonAxisInput

end Input

end Qt3DInput

/-! ## Service locator: facts about the hash operations -/

namespace Qt3D

namespace QHash

theorem value_insert_same (h : ServiceHash) (key : Int) (v dflt : ProviderPtr) :
    value (insert h key v) key dflt = v := by
  induction h with
  | nil => simp [insert, value]
  | cons kw rest ih =>
    obtain ⟨k, w⟩ := kw
    by_cases hk : k = key
    · simp [insert, value, hk]
    · simp [insert, value, hk, ih]

theorem value_insert_other (h : ServiceHash) (key other : Int) (v dflt : ProviderPtr)
    (hne : other ≠ key) : value (insert h key v) other dflt = value h other dflt := by
  induction h with
  | nil => simp [insert, value, Ne.symm hne]
  | cons kw rest ih =>
    obtain ⟨k, w⟩ := kw
    by_cases hk : k = key
    · subst hk
      simp [insert, value, Ne.symm hne]
    · by_cases ho : k = other
      · subst ho
        simp [insert, value, hne]
      · simp [insert, value, hk, ho, ih]

theorem value_erase_same (h : ServiceHash) (key : Int) (dflt : ProviderPtr) :
    value (erase h key) key dflt = dflt := by
  induction h with
  | nil => simp [erase, value]
  | cons kw rest ih =>
    obtain ⟨k, w⟩ := kw
    by_cases hk : k = key
    · simpa [erase, List.filter_cons, hk] using ih
    · simpa [erase, List.filter_cons, hk, value] using ih

theorem erase_of_not_contains (h : ServiceHash) (key : Int)
    (hc : contains h key = false) : erase h key = h := by
  induction h with
  | nil => simp [erase]
  | cons kw rest ih =>
    obtain ⟨k, w⟩ := kw
    by_cases hk : k = key
    · simp [contains, hk] at hc
    · have hr : contains rest key = false := by simpa [contains, hk] using hc
      have hrest := ih hr
      simp only [erase] at hrest ⊢
      rw [List.filter_cons, if_pos (by simpa using hk), hrest]

theorem value_of_not_contains (h : ServiceHash) (key : Int) (dflt : ProviderPtr)
    (hc : contains h key = false) : value h key dflt = dflt := by
  induction h with
  | nil => simp [value]
  | cons kw rest ih =>
    obtain ⟨k, w⟩ := kw
    by_cases hk : k = key
    · simp [contains, hk] at hc
    · have hr : contains rest key = false := by simpa [contains, hk] using hc
      simp [value, hk, ih hr]

end QHash

end Qt3D

/-! ## Service locator: the claims -/

namespace Qt3D

namespace QServiceLocator

/-- C1, evaluated on the code: on a fresh locator, registering a provider for
SystemInformation and then registering another provider for the same key leaves
one registered key, a reserved one, so that the specified count is 2; the
override counter has been incremented twice and `serviceCount` returns 1. -/
theorem serviceCount_reserved_registered_twice :
    serviceCount (run fresh [Call.register SystemInformation (ProviderPtr.object 1),
      Call.register SystemInformation (ProviderPtr.object 2)]) = 1
    ∧ specServiceCount (run fresh [Call.register SystemInformation (ProviderPtr.object 1),
      Call.register SystemInformation (ProviderPtr.object 2)]) = 2
    ∧ registeredKeys (run fresh [Call.register SystemInformation (ProviderPtr.object 1),
      Call.register SystemInformation (ProviderPtr.object 2)]) = 1 := by
  decide

/-- C2: for each reserved key, a locator without a provider for the key answers
with its built-in null service, both through the accessor and through
`_q_getServiceHelper`; after `registerServiceProvider` for the key it answers
with the registered provider; after a following `unregisterServiceProvider` it
answers with the built-in null service again. -/
theorem reserved_lookup_lifecycle (d : QServiceLocatorPrivate) (P : ProviderPtr) :
    (QHash.contains d.m_services SystemInformation = false →
        systemInformation d = ProviderPtr.nullSystemInfo
        ∧ _q_getServiceHelper d SystemInformation = ProviderPtr.nullSystemInfo)
    ∧ (QHash.contains d.m_services OpenGLInformation = false →
        openGLInformation d = ProviderPtr.nullOpenGLInfo
        ∧ _q_getServiceHelper d OpenGLInformation = ProviderPtr.nullOpenGLInfo)
    ∧ systemInformation (registerServiceProvider d SystemInformation P) = P
    ∧ _q_getServiceHelper (registerServiceProvider d SystemInformation P) SystemInformation = P
    ∧ openGLInformation (registerServiceProvider d OpenGLInformation P) = P
    ∧ _q_getServiceHelper (registerServiceProvider d OpenGLInformation P) OpenGLInformation = P
    ∧ systemInformation (unregisterServiceProvider
        (registerServiceProvider d SystemInformation P) SystemInformation)
        = ProviderPtr.nullSystemInfo
    ∧ _q_getServiceHelper (unregisterServiceProvider
        (registerServiceProvider d SystemInformation P) SystemInformation) SystemInformation
        = ProviderPtr.nullSystemInfo
    ∧ openGLInformation (unregisterServiceProvider
        (registerServiceProvider d OpenGLInformation P) OpenGLInformation)
        = ProviderPtr.nullOpenGLInfo
    ∧ _q_getServiceHelper (unregisterServiceProvider
        (registerServiceProvider d OpenGLInformation P) OpenGLInformation) OpenGLInformation
        = ProviderPtr.nullOpenGLInfo := by
  have hs : systemInformation (registerServiceProvider d SystemInformation P) = P := by
    simp [systemInformation, registerServiceProvider, SystemInformation, DefaultServiceCount,
      QHash.value_insert_same]
  have ho : openGLInformation (registerServiceProvider d OpenGLInformation P) = P := by
    simp [openGLInformation, registerServiceProvider, OpenGLInformation, DefaultServiceCount,
      QHash.value_insert_same]
  have hus : systemInformation (unregisterServiceProvider
      (registerServiceProvider d SystemInformation P) SystemInformation)
      = ProviderPtr.nullSystemInfo := by
    simp [systemInformation, unregisterServiceProvider, QHash.remove, SystemInformation,
      DefaultServiceCount, QHash.value_erase_same]
  have huo : openGLInformation (unregisterServiceProvider
      (registerServiceProvider d OpenGLInformation P) OpenGLInformation)
      = ProviderPtr.nullOpenGLInfo := by
    simp [openGLInformation, unregisterServiceProvider, QHash.remove, OpenGLInformation,
      DefaultServiceCount, QHash.value_erase_same]
  have gs : ∀ x, _q_getServiceHelper x SystemInformation = systemInformation x := by
    intro x; simp [_q_getServiceHelper]
  have go : ∀ x, _q_getServiceHelper x OpenGLInformation = openGLInformation x := by
    intro x; simp [_q_getServiceHelper, OpenGLInformation, SystemInformation]
  refine ⟨?_, ?_, hs, ?_, ho, ?_, hus, ?_, huo, ?_⟩
  · intro hc
    have hv : systemInformation d = ProviderPtr.nullSystemInfo :=
      QHash.value_of_not_contains _ _ _ hc
    exact ⟨hv, by rw [gs, hv]⟩
  · intro hc
    have hv : openGLInformation d = ProviderPtr.nullOpenGLInfo :=
      QHash.value_of_not_contains _ _ _ hc
    exact ⟨hv, by rw [go, hv]⟩
  · rw [gs, hs]
  · rw [go, ho]
  · rw [gs, hus]
  · rw [go, huo]

/-- Witness of C2 at the fresh locator and the provider object 7. -/
theorem reserved_lookup_lifecycle_witness :
    QHash.contains fresh.m_services SystemInformation = false
    ∧ QHash.contains fresh.m_services OpenGLInformation = false
    ∧ systemInformation fresh = ProviderPtr.nullSystemInfo
    ∧ openGLInformation fresh = ProviderPtr.nullOpenGLInfo
    ∧ systemInformation (registerServiceProvider fresh SystemInformation (ProviderPtr.object 7))
        = ProviderPtr.object 7
    ∧ systemInformation (unregisterServiceProvider
        (registerServiceProvider fresh SystemInformation (ProviderPtr.object 7))
        SystemInformation) = ProviderPtr.nullSystemInfo :=
  ⟨by decide, by decide,
    ((reserved_lookup_lifecycle fresh (ProviderPtr.object 7)).1 (by decide)).1,
    ((reserved_lookup_lifecycle fresh (ProviderPtr.object 7)).2.1 (by decide)).1,
    (reserved_lookup_lifecycle fresh (ProviderPtr.object 7)).2.2.1,
    (reserved_lookup_lifecycle fresh (ProviderPtr.object 7)).2.2.2.2.2.2.1⟩

/-- C3: for a key other than the two reserved keys, `_q_getServiceHelper` returns
the null pointer on a fresh locator, returns the provider after
`registerServiceProvider` (from any locator state), and returns the null pointer
again after `unregisterServiceProvider`. -/
theorem other_lookup_lifecycle (d : QServiceLocatorPrivate) (T : Int) (P : ProviderPtr)
    (hs : T ≠ SystemInformation) (ho : T ≠ OpenGLInformation) :
    _q_getServiceHelper fresh T = ProviderPtr.null
    ∧ _q_getServiceHelper (registerServiceProvider fresh T P) T = P
    ∧ _q_getServiceHelper (unregisterServiceProvider (registerServiceProvider fresh T P) T) T
        = ProviderPtr.null
    ∧ _q_getServiceHelper (registerServiceProvider d T P) T = P
    ∧ _q_getServiceHelper (unregisterServiceProvider (registerServiceProvider d T P) T) T
        = ProviderPtr.null := by
  have hreg : ∀ x : QServiceLocatorPrivate,
      _q_getServiceHelper (registerServiceProvider x T P) T = P := by
    intro x
    by_cases hlt : T < DefaultServiceCount
    · simp [_q_getServiceHelper, hs, ho, registerServiceProvider, hlt, QHash.value_insert_same]
    · simp [_q_getServiceHelper, hs, ho, registerServiceProvider, hlt, QHash.value_insert_same]
  have hunreg : ∀ x : QServiceLocatorPrivate,
      _q_getServiceHelper (unregisterServiceProvider x T) T = ProviderPtr.null := by
    intro x
    by_cases hlt : T < DefaultServiceCount
    · simp [_q_getServiceHelper, hs, ho, unregisterServiceProvider, hlt, QHash.remove,
        QHash.value_erase_same]
    · simp [_q_getServiceHelper, hs, ho, unregisterServiceProvider, hlt, QHash.remove,
        QHash.value_erase_same]
  refine ⟨?_, hreg fresh, hunreg _, hreg d, hunreg _⟩
  simp [_q_getServiceHelper, hs, ho, fresh, QHash.value]

/-- Witness of C3 at the key 256 and the provider object 7. -/
theorem other_lookup_lifecycle_witness :
    _q_getServiceHelper fresh 256 = ProviderPtr.null
    ∧ _q_getServiceHelper (registerServiceProvider fresh 256 (ProviderPtr.object 7)) 256
        = ProviderPtr.object 7
    ∧ _q_getServiceHelper (unregisterServiceProvider
        (registerServiceProvider fresh 256 (ProviderPtr.object 7)) 256) 256 = ProviderPtr.null :=
  ⟨(other_lookup_lifecycle fresh 256 (ProviderPtr.object 7) (by decide) (by decide)).1,
    (other_lookup_lifecycle fresh 256 (ProviderPtr.object 7) (by decide) (by decide)).2.1,
    (other_lookup_lifecycle fresh 256 (ProviderPtr.object 7) (by decide) (by decide)).2.2.1⟩

/-- C4, evaluated on the code: after `registerServiceProvider(SystemInformation, nullptr)`
and `registerServiceProvider(OpenGLInformation, nullptr)` on a fresh locator, both
accessors return the null pointer. -/
theorem accessors_return_registered_null :
    systemInformation (run fresh [Call.register SystemInformation ProviderPtr.null,
      Call.register OpenGLInformation ProviderPtr.null]) = ProviderPtr.null
    ∧ openGLInformation (run fresh [Call.register SystemInformation ProviderPtr.null,
      Call.register OpenGLInformation ProviderPtr.null]) = ProviderPtr.null := by
  decide

/-- C5: after `registerServiceProvider(T, P2)` the lookup for T returns P2, from
any locator state and also when a provider P1 had been registered for T just
before; the lookup for any other key, through `_q_getServiceHelper` and through
the two accessors, returns what it returned before the call. -/
theorem register_last_write_wins (d : QServiceLocatorPrivate) (T other : Int)
    (P1 P2 : ProviderPtr) (hne : other ≠ T) :
    _q_getServiceHelper (registerServiceProvider d T P2) T = P2
    ∧ _q_getServiceHelper (registerServiceProvider (registerServiceProvider d T P1) T P2) T = P2
    ∧ _q_getServiceHelper (registerServiceProvider d T P2) other = _q_getServiceHelper d other
    ∧ (T ≠ SystemInformation →
        systemInformation (registerServiceProvider d T P2) = systemInformation d)
    ∧ (T ≠ OpenGLInformation →
        openGLInformation (registerServiceProvider d T P2) = openGLInformation d) := by
  have hserv : ∀ (x : QServiceLocatorPrivate) (P : ProviderPtr),
      (registerServiceProvider x T P).m_services = QHash.insert x.m_services T P := by
    intro x P
    unfold registerServiceProvider
    by_cases hlt : T < DefaultServiceCount <;> simp [hlt]
  have hsame : ∀ (x : QServiceLocatorPrivate),
      _q_getServiceHelper (registerServiceProvider x T P2) T = P2 := by
    intro x
    unfold _q_getServiceHelper systemInformation openGLInformation
    rw [hserv]
    split_ifs with h1 h2
    · rw [← h1]; exact QHash.value_insert_same _ _ _ _
    · rw [← h2]; exact QHash.value_insert_same _ _ _ _
    · exact QHash.value_insert_same _ _ _ _
  refine ⟨hsame d, hsame _, ?_, ?_, ?_⟩
  · unfold _q_getServiceHelper systemInformation openGLInformation
    rw [hserv]
    split_ifs with h1 h2
    · exact QHash.value_insert_other _ _ _ _ _ (h1 ▸ hne)
    · exact QHash.value_insert_other _ _ _ _ _ (h2 ▸ hne)
    · exact QHash.value_insert_other _ _ _ _ _ hne
  · intro h
    unfold systemInformation
    rw [hserv]
    exact QHash.value_insert_other _ _ _ _ _ (Ne.symm h)
  · intro h
    unfold openGLInformation
    rw [hserv]
    exact QHash.value_insert_other _ _ _ _ _ (Ne.symm h)

/-- Witness of C5: key 300 is registered twice while key 256 holds object 5. -/
theorem register_last_write_wins_witness :
    (256 : Int) ≠ 300
    ∧ _q_getServiceHelper (registerServiceProvider
        (registerServiceProvider fresh 256 (ProviderPtr.object 5)) 300 (ProviderPtr.object 2)) 300
        = ProviderPtr.object 2
    ∧ _q_getServiceHelper (registerServiceProvider
        (registerServiceProvider fresh 256 (ProviderPtr.object 5)) 300 (ProviderPtr.object 2)) 256
        = _q_getServiceHelper (registerServiceProvider fresh 256 (ProviderPtr.object 5)) 256 :=
  ⟨by decide,
    (register_last_write_wins (registerServiceProvider fresh 256 (ProviderPtr.object 5)) 300 256
      (ProviderPtr.object 1) (ProviderPtr.object 2) (by decide)).1,
    (register_last_write_wins (registerServiceProvider fresh 256 (ProviderPtr.object 5)) 300 256
      (ProviderPtr.object 1) (ProviderPtr.object 2) (by decide)).2.2.1⟩

/-- C6: `unregisterServiceProvider(T)` for a key T without a registered provider
returns the locator state it was given: the registry, the override counter,
`serviceCount` and every lookup result are the same before and after. -/
theorem unregister_absent_noop (d : QServiceLocatorPrivate) (T : Int)
    (habsent : QHash.contains d.m_services T = false) :
    unregisterServiceProvider d T = d
    ∧ (unregisterServiceProvider d T).m_services = d.m_services
    ∧ (unregisterServiceProvider d T).m_nonNullDefaultServices = d.m_nonNullDefaultServices
    ∧ serviceCount (unregisterServiceProvider d T) = serviceCount d
    ∧ systemInformation (unregisterServiceProvider d T) = systemInformation d
    ∧ openGLInformation (unregisterServiceProvider d T) = openGLInformation d
    ∧ ∀ key : Int, _q_getServiceHelper (unregisterServiceProvider d T) key
        = _q_getServiceHelper d key := by
  have heq : unregisterServiceProvider d T = d := by
    obtain ⟨services, counter⟩ := d
    have he : QHash.erase services T = services := QHash.erase_of_not_contains _ _ habsent
    unfold unregisterServiceProvider
    by_cases hlt : T < DefaultServiceCount <;> simp [hlt, QHash.remove, he]
  rw [heq]
  exact ⟨rfl, rfl, rfl, rfl, rfl, rfl, fun _ => rfl⟩

/-- Witness of C6: key 300 is unregistered while only key 256 is registered. -/
theorem unregister_absent_noop_witness :
    QHash.contains (registerServiceProvider fresh 256 (ProviderPtr.object 5)).m_services 300 = false
    ∧ unregisterServiceProvider (registerServiceProvider fresh 256 (ProviderPtr.object 5)) 300
        = registerServiceProvider fresh 256 (ProviderPtr.object 5) :=
  ⟨by decide,
    (unregister_absent_noop (registerServiceProvider fresh 256 (ProviderPtr.object 5)) 300
      (by decide)).1⟩

/-- C7, evaluated on the code: the key -1 is outside the reserved set and not
registered on a fresh locator, whose `serviceCount` is 2; after
`registerServiceProvider(-1, P)` the key is registered and `serviceCount` is
still 2, while `_q_getServiceHelper(-1)` returns P through the branch for
non-reserved keys. -/
theorem serviceCount_negative_key :
    serviceCount fresh = 2
    ∧ isReserved (-1) = false
    ∧ QHash.contains fresh.m_services (-1) = false
    ∧ QHash.contains (registerServiceProvider fresh (-1) (ProviderPtr.object 1)).m_services (-1)
        = true
    ∧ serviceCount (registerServiceProvider fresh (-1) (ProviderPtr.object 1)) = 2
    ∧ _q_getServiceHelper (registerServiceProvider fresh (-1) (ProviderPtr.object 1)) (-1)
        = ProviderPtr.object 1 := by
  decide

/-- C8, evaluated on the code: in the state reached from a fresh locator by
`registerServiceProvider(SystemInformation, P1)`, where `serviceCount` is 2, the
call `registerServiceProvider(SystemInformation, P2)` lowers `serviceCount` to 1. -/
theorem serviceCount_reserved_override_again :
    serviceCount (run fresh [Call.register SystemInformation (ProviderPtr.object 1)]) = 2
    ∧ serviceCount (registerServiceProvider
        (run fresh [Call.register SystemInformation (ProviderPtr.object 1)])
        SystemInformation (ProviderPtr.object 2)) = 1 := by
  decide

end QServiceLocator

end Qt3D

/-! ## Scene loader: the claims -/

namespace Qt3DRender

namespace QSceneLoader

theorem status_setStatus (d : QSceneLoaderPrivate) (w : World) (s : Status) :
    (setStatus d w s).1.m_status = s := by
  unfold setStatus
  by_cases h : d.m_status = s <;> simp [h]

theorem subTreeRoot_setStatus (d : QSceneLoaderPrivate) (w : World) (s : Status) :
    (setStatus d w s).1.m_subTreeRoot = d.m_subTreeRoot := by
  unfold setStatus
  by_cases h : d.m_status = s <;> simp [h]

theorem parentOf_setStatus (d : QSceneLoaderPrivate) (w : World) (s : Status) :
    (setStatus d w s).2.parentOf = w.parentOf := by
  unfold setStatus
  by_cases h : d.m_status = s <;> simp [h, World.emit]

theorem log_setStatus (d : QSceneLoaderPrivate) (w : World) (s : Status) :
    ∃ rest, (setStatus d w s).2.log = w.log ++ rest := by
  unfold setStatus
  by_cases h : d.m_status = s
  · exact ⟨[], by simp [h]⟩
  · exact ⟨[Effect.statusChanged s], by simp [h, World.emit]⟩

theorem scene_dropSubTree (d : QSceneLoaderPrivate) (w : World) :
    (dropSubTree d w).1.m_scene = d.m_scene ∧ (dropSubTree d w).1.m_id = d.m_id
    ∧ (dropSubTree d w).1.m_subTreeRoot = none := by
  unfold dropSubTree
  cases h : d.m_subTreeRoot <;> simp [h]

theorem log_dropSubTree (d : QSceneLoaderPrivate) (w : World) (root : Nat)
    (h : d.m_subTreeRoot = some root) :
    (dropSubTree d w).2.log = w.log ++ [Effect.deleted root] := by
  simp [dropSubTree, h, World.deleteNode]

/-- C10: a NodeUpdated change named "scene" whose value holds no entity makes
`sceneChangeEvent` finish with status Error and a null sub tree root; a sub tree
that was attached before has been deleted during the call. -/
theorem sceneChangeEvent_empty_payload (d : QSceneLoaderPrivate) (w : World)
    (e : QScenePropertyChange)
    (htype : e.type = ChangeFlag.NodeUpdated) (hname : e.propertyName = "scene")
    (hvalue : e.value.toEntity = none) :
    ∃ d2 w2, sceneChangeEvent d w e = some (d2, w2)
      ∧ status d2 = Status.Error
      ∧ d2.m_subTreeRoot = none
      ∧ ∀ root, d.m_subTreeRoot = some root →
          w2.destroyed root = true
          ∧ ∃ rest, w2.log = w.log ++ Effect.deleted root :: rest := by
  have hrun : sceneChangeEvent d w e
      = some (setStatus (dropSubTree d w).1 (dropSubTree d w).2 Status.Error) := by
    simp [sceneChangeEvent, htype, hname, hvalue]
  refine ⟨(setStatus (dropSubTree d w).1 (dropSubTree d w).2 Status.Error).1,
    (setStatus (dropSubTree d w).1 (dropSubTree d w).2 Status.Error).2, hrun,
    status_setStatus _ _ _, ?_, ?_⟩
  · rw [subTreeRoot_setStatus]
    exact (scene_dropSubTree d w).2.2
  · intro root hroot
    obtain ⟨rest, hrest⟩ := log_setStatus (dropSubTree d w).1 (dropSubTree d w).2 Status.Error
    rw [log_dropSubTree d w root hroot] at hrest
    refine ⟨?_, rest, by simpa using hrest⟩
    unfold World.destroyed
    rw [hrest]
    simp

/-- Witness of C10: the loader of `exampleLoader`, which holds the sub tree 3,
receives a null entity pointer. -/
theorem sceneChangeEvent_empty_payload_witness :
    (sceneUpdate none).value.toEntity = none
    ∧ ∃ d2 w2, sceneChangeEvent exampleLoader exampleWorld (sceneUpdate none) = some (d2, w2)
        ∧ status d2 = Status.Error
        ∧ d2.m_subTreeRoot = none
        ∧ ∀ root, exampleLoader.m_subTreeRoot = some root →
            w2.destroyed root = true
            ∧ ∃ rest, w2.log = exampleWorld.log ++ Effect.deleted root :: rest :=
  ⟨rfl, sceneChangeEvent_empty_payload exampleLoader exampleWorld (sceneUpdate none) rfl rfl rfl⟩

end QSceneLoader

end Qt3DRender

/-! ## Service locator under disciplined use -/

namespace Qt3D

namespace QHash

theorem insert_of_not_contains (h : ServiceHash) (key : Int) (v : ProviderPtr)
    (hc : contains h key = false) : insert h key v = h ++ [(key, v)] := by
  induction h with
  | nil => simp [insert]
  | cons kw rest ih =>
    obtain ⟨k, w⟩ := kw
    by_cases hk : k = key
    · simp [contains, hk] at hc
    · have hr : contains rest key = false := by simpa [contains, hk] using hc
      simp [insert, hk, ih hr]

theorem not_mem_keys_of_not_contains (h : ServiceHash) (key : Int)
    (hc : contains h key = false) : key ∉ h.map Prod.fst := by
  induction h with
  | nil => simp
  | cons kw rest ih =>
    obtain ⟨k, w⟩ := kw
    by_cases hk : k = key
    · simp [contains, hk] at hc
    · have hr : contains rest key = false := by simpa [contains, hk] using hc
      have := ih hr
      simp only [List.map_cons, List.mem_cons, not_or]
      exact ⟨fun h' => hk h'.symm, this⟩

theorem length_low_erase_low (h : ServiceHash) (key : Int) (hlt : key < 2) :
    (((erase h key).filter (fun kv => decide (kv.1 < 2))).length : Int)
      = ((h.filter (fun kv => decide (kv.1 < 2))).length : Int)
        - ((h.length : Int) - ((erase h key).length : Int)) := by
  induction h with
  | nil => simp [erase]
  | cons kw rest ih =>
    obtain ⟨k, w⟩ := kw
    simp only [erase] at ih ⊢
    by_cases hk : k = key
    · subst hk
      simp [List.filter_cons, hlt] at ih ⊢
      omega
    · by_cases hk2 : k < 2
      · simp [List.filter_cons, hk, hk2] at ih ⊢
        omega
      · simp [List.filter_cons, hk, hk2] at ih ⊢
        omega

theorem length_low_erase_high (h : ServiceHash) (key : Int) (hge : ¬ key < 2) :
    ((erase h key).filter (fun kv => decide (kv.1 < 2))).length
      = (h.filter (fun kv => decide (kv.1 < 2))).length := by
  induction h with
  | nil => simp [erase]
  | cons kw rest ih =>
    obtain ⟨k, w⟩ := kw
    simp only [erase] at ih ⊢
    by_cases hk : k = key
    · subst hk
      simpa [List.filter_cons, hge] using ih
    · by_cases hk2 : k < 2
      · simpa [List.filter_cons, hk, hk2] using ih
      · simpa [List.filter_cons, hk, hk2] using ih

end QHash

namespace QServiceLocator

/-- The state of a locator that has been used in a disciplined way: the keys are
non-negative and pairwise different, and the override counter is the number of
items with a key below `DefaultServiceCount`. -/
theorem disciplined_invariant (calls : List Call) (d : QServiceLocatorPrivate)
    (hnonneg : ∀ k ∈ d.m_services.map Prod.fst, (0 : Int) ≤ k)
    (hnodup : (d.m_services.map Prod.fst).Nodup)
    (hcounter : d.m_nonNullDefaultServices
      = ((d.m_services.filter (fun kv => decide (kv.1 < 2))).length : Int))
    (hdisc : disciplined d calls = true) :
    (∀ k ∈ (run d calls).m_services.map Prod.fst, (0 : Int) ≤ k)
    ∧ ((run d calls).m_services.map Prod.fst).Nodup
    ∧ (run d calls).m_nonNullDefaultServices
      = (((run d calls).m_services.filter (fun kv => decide (kv.1 < 2))).length : Int) := by
  induction calls generalizing d with
  | nil => exact ⟨hnonneg, hnodup, hcounter⟩
  | cons c rest ih =>
    cases c with
    | register t p =>
      simp only [disciplined, Bool.and_eq_true, decide_eq_true_eq, Bool.not_eq_true'] at hdisc
      obtain ⟨⟨ht, hfree⟩, hrest⟩ := hdisc
      have hins := QHash.insert_of_not_contains d.m_services t p hfree
      have hnot := QHash.not_mem_keys_of_not_contains d.m_services t hfree
      have hserv : (registerServiceProvider d t p).m_services = d.m_services ++ [(t, p)] := by
        unfold registerServiceProvider
        by_cases hlt : t < DefaultServiceCount <;> simp [hlt, hins]
      refine ih (registerServiceProvider d t p) ?_ ?_ ?_ hrest
      · intro k hk
        rw [hserv] at hk
        simp only [List.map_append, List.map_cons, List.map_nil, List.mem_append,
          List.mem_singleton] at hk
        rcases hk with hk | hk
        · exact hnonneg k hk
        · rw [hk]; exact ht
      · rw [hserv]
        simp only [List.map_append, List.map_cons, List.map_nil]
        rw [List.nodup_append]
        refine ⟨hnodup, List.nodup_singleton _, ?_⟩
        intro a ha hb
        rw [List.mem_singleton] at hb
        exact hnot (hb ▸ ha)
      · rw [hserv]
        unfold registerServiceProvider
        by_cases hlt : t < DefaultServiceCount
        · have hlt2 : t < 2 := hlt
          simp [hlt, List.filter_append, List.filter_cons, hlt2, hcounter]
        · have hlt2 : ¬ t < 2 := hlt
          simp [hlt, List.filter_append, List.filter_cons, hlt2, hcounter]
    | unregister t =>
      simp only [disciplined] at hdisc
      have hserv : (unregisterServiceProvider d t).m_services = QHash.erase d.m_services t := by
        unfold unregisterServiceProvider
        by_cases hlt : t < DefaultServiceCount <;> simp [hlt, QHash.remove]
      have hsub : ((QHash.erase d.m_services t).map Prod.fst).Sublist
          (d.m_services.map Prod.fst) :=
        List.Sublist.map _ (List.filter_sublist _)
      refine ih (unregisterServiceProvider d t) ?_ ?_ ?_ hdisc
      · intro k hk
        rw [hserv] at hk
        exact hnonneg k (hsub.subset hk)
      · rw [hserv]
        exact hnodup.sublist hsub
      · rw [hserv]
        unfold unregisterServiceProvider
        by_cases hlt : t < DefaultServiceCount
        · have hlt2 : t < 2 := hlt
          rw [QHash.length_low_erase_low d.m_services t hlt2]
          simp [hlt, QHash.remove, hcounter]
        · have hlt2 : ¬ t < 2 := hlt
          rw [QHash.length_low_erase_high d.m_services t hlt2]
          simp [hlt, hcounter]

theorem length_reserved_keys (keys : List Int) (hnonneg : ∀ k ∈ keys, (0 : Int) ≤ k) :
    (keys.filter isReserved).length = (keys.filter (fun k => decide (k < 2))).length := by
  induction keys with
  | nil => simp
  | cons k rest ih =>
    have hk : (0 : Int) ≤ k := hnonneg k (List.mem_cons_self _ _)
    have hrest := ih (fun x hx => hnonneg x (List.mem_cons_of_mem _ hx))
    have hiff : isReserved k = decide (k < 2) := by
      unfold isReserved SystemInformation OpenGLInformation
      by_cases h2 : k < 2
      · have : k = 0 ∨ k = 1 := by omega
        rcases this with h | h <;> simp [h]
      · have h0 : ¬ k = 0 := by omega
        have h1 : ¬ k = 1 := by omega
        simp [h0, h1, h2]
    simp only [List.filter_cons, hiff]
    by_cases h2 : k < 2 <;> simp [h2, hrest]

theorem length_filter_not (keys : List Int) (p : Int → Bool) :
    ((keys.filter (fun k => !p k)).length : Int)
      = (keys.length : Int) - ((keys.filter p).length : Int) := by
  induction keys with
  | nil => simp
  | cons k rest ih =>
    by_cases hp : p k = true
    · simp [List.filter_cons, hp, ih]
    · simp [List.filter_cons, hp, ih]
      omega

theorem length_low_keys (h : ServiceHash) :
    ((h.map Prod.fst).filter (fun k => decide (k < 2))).length
      = (h.filter (fun kv => decide (kv.1 < 2))).length := by
  induction h with
  | nil => simp
  | cons kw rest ih =>
    obtain ⟨k, w⟩ := kw
    by_cases h2 : k < 2 <;> simp [List.filter_cons, h2, ih]

/-- C20: when every key passed to `registerServiceProvider` is non-negative and not
registered at the time of the call, the state reached from a fresh locator has an
override counter equal to the number of registered reserved keys, and
`serviceCount` is 2 plus the number of registered non-reserved keys, hence at
least 2. -/
theorem serviceCount_disciplined (calls : List Call)
    (hdisc : disciplined fresh calls = true) :
    (run fresh calls).m_nonNullDefaultServices = registeredReservedKeys (run fresh calls)
    ∧ serviceCount (run fresh calls) = 2 + registeredOtherKeys (run fresh calls)
    ∧ serviceCount (run fresh calls) = specServiceCount (run fresh calls)
    ∧ 2 ≤ serviceCount (run fresh calls) := by
  obtain ⟨hnonneg, hnodup, hcounter⟩ :=
    disciplined_invariant calls fresh (by simp [fresh]) (by simp [fresh]) (by simp [fresh]) hdisc
  have hres : registeredReservedKeys (run fresh calls)
      = (run fresh calls).m_nonNullDefaultServices := by
    unfold registeredReservedKeys
    rw [hnodup.dedup, length_reserved_keys _ hnonneg, length_low_keys, hcounter]
  have hother : registeredOtherKeys (run fresh calls)
      = ((run fresh calls).m_services.length : Int) - registeredReservedKeys (run fresh calls) := by
    unfold registeredOtherKeys registeredReservedKeys
    rw [hnodup.dedup, length_filter_not, List.length_map]
  have hkeys : registeredKeys (run fresh calls) = ((run fresh calls).m_services.length : Int) := by
    unfold registeredKeys
    rw [hnodup.dedup, List.length_map]
  have hpos : (0 : Int) ≤ registeredOtherKeys (run fresh calls) := by
    unfold registeredOtherKeys
    exact Int.natCast_nonneg _
  have hcount : serviceCount (run fresh calls) = 2 + registeredOtherKeys (run fresh calls) := by
    unfold serviceCount QHash.size DefaultServiceCount
    rw [hother, hres]
    ring
  refine ⟨hres.symm, hcount, ?_, ?_⟩
  · unfold specServiceCount
    rw [hcount, hother, hkeys]
    ring
  · rw [hcount]
    omega

/-- Witness of C20: a disciplined sequence that registers the reserved key 0 and
the key 256, unregisters 0 and registers it again. -/
theorem serviceCount_disciplined_witness :
    disciplined fresh [Call.register 0 (ProviderPtr.object 1),
      Call.register 256 (ProviderPtr.object 2), Call.unregister 0,
      Call.register 0 (ProviderPtr.object 3)] = true
    ∧ serviceCount (run fresh [Call.register 0 (ProviderPtr.object 1),
      Call.register 256 (ProviderPtr.object 2), Call.unregister 0,
      Call.register 0 (ProviderPtr.object 3)])
      = 2 + registeredOtherKeys (run fresh [Call.register 0 (ProviderPtr.object 1),
      Call.register 256 (ProviderPtr.object 2), Call.unregister 0,
      Call.register 0 (ProviderPtr.object 3)]) :=
  ⟨by decide,
    (serviceCount_disciplined [Call.register 0 (ProviderPtr.object 1),
      Call.register 256 (ProviderPtr.object 2), Call.unregister 0,
      Call.register 0 (ProviderPtr.object 3)] (by decide)).2.1⟩

end QServiceLocator

end Qt3D

/-! ## Scene loader: what a "scene" update does -/

namespace Qt3DRender

namespace QSceneLoader

theorem isSceneUpdate_iff (e : QScenePropertyChange) :
    isSceneUpdate e = true ↔ e.type = ChangeFlag.NodeUpdated ∧ e.propertyName = "scene" := by
  simp [isSceneUpdate]

theorem sceneChangeEvent_other (d : QSceneLoaderPrivate) (w : World)
    (e : QScenePropertyChange) (h : isSceneUpdate e = false) :
    sceneChangeEvent d w e = some (d, w) := by
  unfold sceneChangeEvent
  by_cases ht : e.type = ChangeFlag.NodeUpdated
  · by_cases hn : e.propertyName = "scene"
    · simp [isSceneUpdate, ht, hn] at h
    · simp [ht, hn]
  · simp [ht]

theorem dropSubTree_fields (d : QSceneLoaderPrivate) (w : World) :
    (dropSubTree d w).1.m_status = d.m_status
    ∧ (dropSubTree d w).1.m_source = d.m_source
    ∧ (dropSubTree d w).1.m_id = d.m_id
    ∧ (dropSubTree d w).1.m_scene = d.m_scene
    ∧ (dropSubTree d w).1.m_subTreeRoot = none
    ∧ (dropSubTree d w).2.log = w.log ++ dropLog d.m_subTreeRoot := by
  unfold dropSubTree
  cases h : d.m_subTreeRoot <;> simp [h, dropLog, World.deleteNode]

theorem setStatus_fields (d : QSceneLoaderPrivate) (w : World) (s : Status) :
    (setStatus d w s).1.m_status = s
    ∧ (setStatus d w s).1.m_source = d.m_source
    ∧ (setStatus d w s).1.m_id = d.m_id
    ∧ (setStatus d w s).1.m_scene = d.m_scene
    ∧ (setStatus d w s).1.m_subTreeRoot = d.m_subTreeRoot
    ∧ (setStatus d w s).2.log = w.log ++ statusLog d.m_status s := by
  unfold setStatus statusLog
  by_cases h : d.m_status = s <;> simp [h, World.emit]

/-- What a "scene" update that returns has done. -/
theorem sceneChangeEvent_update_result (d d2 : QSceneLoaderPrivate) (w w2 : World)
    (e : QScenePropertyChange) (hupd : isSceneUpdate e = true)
    (h : sceneChangeEvent d w e = some (d2, w2)) :
    d2.m_subTreeRoot = e.value.toEntity
    ∧ d2.m_status = loadStatus e.value.toEntity
    ∧ d2.m_source = d.m_source
    ∧ d2.m_id = d.m_id
    ∧ d2.m_scene = d.m_scene
    ∧ ∃ parent, w2.log = w.log ++ dropLog d.m_subTreeRoot
        ++ graftLog e.value.toEntity parent ++ statusLog d.m_status d2.m_status := by
  obtain ⟨ht, hn⟩ := (isSceneUpdate_iff e).1 hupd
  obtain ⟨hst, hso, hid, hsc, hroot, hlog⟩ := dropSubTree_fields d w
  cases hv : e.value.toEntity with
  | none =>
    have hrun : sceneChangeEvent d w e
        = some (setStatus (dropSubTree d w).1 (dropSubTree d w).2 Status.Error) := by
      simp [sceneChangeEvent, ht, hn, hv]
    rw [hrun] at h
    have h1 : (setStatus (dropSubTree d w).1 (dropSubTree d w).2 Status.Error).1 = d2 :=
      congrArg Prod.fst (Option.some.inj h)
    have h2 : (setStatus (dropSubTree d w).1 (dropSubTree d w).2 Status.Error).2 = w2 :=
      congrArg Prod.snd (Option.some.inj h)
    obtain ⟨fst, fso, fid, fsc, froot, flog⟩ :=
      setStatus_fields (dropSubTree d w).1 (dropSubTree d w).2 Status.Error
    rw [h1] at fst fso fid fsc froot
    rw [h2] at flog
    refine ⟨by rw [froot, hroot], by rw [fst]; rfl, by rw [fso, hso], by rw [fid, hid],
      by rw [fsc, hsc], none, ?_⟩
    rw [flog, hlog, hst, fst]
    simp [graftLog]
  | some S =>
    cases hscene : d.m_scene with
    | none =>
      simp [sceneChangeEvent, ht, hn, hv, hsc, hscene] at h
    | some scene =>
      have hex : ∃ parent, sceneChangeEvent d w e
          = some (setStatus { (dropSubTree d w).1 with m_subTreeRoot := some S }
              ((dropSubTree d w).2.setParent S parent) Status.Ready) := by
        cases hent : scene.entitiesForComponent d.m_id with
        | nil => simp [sceneChangeEvent, ht, hn, hv, hsc, hid, hscene, hent] at h
        | cons a rest =>
          cases rest with
          | nil =>
            exact ⟨scene.castToEntity (scene.lookupNode a), by
              simp [sceneChangeEvent, ht, hn, hv, hsc, hid, hscene, hent]⟩
          | cons b rest2 =>
            simp [sceneChangeEvent, ht, hn, hv, hsc, hid, hscene, hent] at h
      obtain ⟨parent, hrun⟩ := hex
      rw [hrun] at h
      have h1 := congrArg Prod.fst (Option.some.inj h)
      have h2 := congrArg Prod.snd (Option.some.inj h)
      obtain ⟨fst, fso, fid, fsc, froot, flog⟩ :=
        setStatus_fields { (dropSubTree d w).1 with m_subTreeRoot := some S }
          ((dropSubTree d w).2.setParent S parent) Status.Ready
      rw [h1] at fst fso fid fsc froot
      rw [h2] at flog
      refine ⟨by rw [froot], by rw [fst]; rfl, by rw [fso]; exact hso, by rw [fid]; exact hid,
        by rw [fsc]; exact hsc.trans hscene, parent, ?_⟩
      rw [flog, fst]
      simp [World.setParent, hlog, graftLog, hst]

/-- A "scene" update returns when it carries no entity, or when the scene knows
exactly one entity for the component. -/
theorem sceneChangeEvent_update_returns (d : QSceneLoaderPrivate) (w : World)
    (e : QScenePropertyChange) (hupd : isSceneUpdate e = true)
    (hok : e.value.toEntity = none ∨ attachedToOne d = true) :
    ∃ d2 w2, sceneChangeEvent d w e = some (d2, w2) := by
  obtain ⟨ht, hn⟩ := (isSceneUpdate_iff e).1 hupd
  obtain ⟨_, _, hid, hsc, _, _⟩ := dropSubTree_fields d w
  cases hv : e.value.toEntity with
  | none =>
    exact ⟨(setStatus (dropSubTree d w).1 (dropSubTree d w).2 Status.Error).1,
      (setStatus (dropSubTree d w).1 (dropSubTree d w).2 Status.Error).2, by
        simp [sceneChangeEvent, ht, hn, hv]⟩
  | some S =>
    have hatt : attachedToOne d = true := by
      rcases hok with h | h
      · rw [hv] at h; cases h
      · exact h
    unfold attachedToOne at hatt
    cases hscene : d.m_scene with
    | none => simp [hscene] at hatt
    | some scene =>
      simp only [hscene, decide_eq_true_eq] at hatt
      cases hent : scene.entitiesForComponent d.m_id with
      | nil => simp [hent] at hatt
      | cons a rest =>
        cases rest with
        | nil =>
          exact ⟨(setStatus { (dropSubTree d w).1 with m_subTreeRoot := some S }
              ((dropSubTree d w).2.setParent S (scene.castToEntity (scene.lookupNode a)))
              Status.Ready).1,
            (setStatus { (dropSubTree d w).1 with m_subTreeRoot := some S }
              ((dropSubTree d w).2.setParent S (scene.castToEntity (scene.lookupNode a)))
              Status.Ready).2, by
            simp [sceneChangeEvent, ht, hn, hv, hsc, hid, hscene, hent]⟩
        | cons b rest2 => simp [hent] at hatt

end QSceneLoader

end Qt3DRender

/-! ## Scene loader: status notifications and the life of the sub tree -/

namespace Qt3DRender

namespace QSceneLoader

theorem statusNotifications_append (a b : List Effect) :
    statusNotifications (a ++ b) = statusNotifications a + statusNotifications b := by
  simp [statusNotifications, List.filter_append]

theorem statusNotifications_dropLog (root : NodePtr) : statusNotifications (dropLog root) = 0 := by
  cases root <;> simp [statusNotifications, dropLog]

theorem statusNotifications_graftLog (subTree parent : NodePtr) :
    statusNotifications (graftLog subTree parent) = 0 := by
  cases subTree <;> simp [statusNotifications, graftLog]

theorem statusNotifications_statusLog (old new : Status) :
    statusNotifications (statusLog old new) = if old = new then 0 else 1 := by
  unfold statusLog
  by_cases h : old = new <;> simp [h, statusNotifications]

/-- C12: `setStatus(s)` makes the status s and emits `statusChanged(s)` exactly when
s differs from the current status; a "scene" update therefore emits no
`statusChanged` when the resulting status equals the previous one and exactly one,
for the new status, when it differs. -/
theorem setStatus_notifies_on_change (d : QSceneLoaderPrivate) (w : World) (s : Status)
    (e : QScenePropertyChange) (hupd : isSceneUpdate e = true)
    (hok : e.value.toEntity = none ∨ attachedToOne d = true) :
    status (setStatus d w s).1 = s
    ∧ (setStatus d w s).2.log
        = w.log ++ (if d.m_status = s then [] else [Effect.statusChanged s])
    ∧ ∃ d2 w2 mid, sceneChangeEvent d w e = some (d2, w2)
        ∧ statusNotifications mid = 0
        ∧ w2.log = w.log ++ mid
            ++ (if d.m_status = d2.m_status then [] else [Effect.statusChanged d2.m_status])
        ∧ statusNotifications w2.log
            = statusNotifications w.log + (if d.m_status = d2.m_status then 0 else 1) := by
  obtain ⟨fst, _, _, _, _, flog⟩ := setStatus_fields d w s
  refine ⟨fst, flog, ?_⟩
  obtain ⟨d2, w2, hrun⟩ := sceneChangeEvent_update_returns d w e hupd hok
  obtain ⟨_, _, _, _, _, parent, hlog⟩ := sceneChangeEvent_update_result d d2 w w2 e hupd hrun
  refine ⟨d2, w2, dropLog d.m_subTreeRoot ++ graftLog e.value.toEntity parent, hrun, ?_, ?_, ?_⟩
  · rw [statusNotifications_append, statusNotifications_dropLog, statusNotifications_graftLog]
  · rw [hlog]
    simp [statusLog, List.append_assoc]
  · rw [hlog]
    simp only [statusNotifications_append, statusNotifications_dropLog,
      statusNotifications_graftLog, statusNotifications_statusLog]
    omega

/-- Witness of C12: the loader of `exampleLoader` is Ready and receives the entity
7, so that it stays Ready. -/
theorem setStatus_notifies_on_change_witness :
    isSceneUpdate (sceneUpdate (some 7)) = true
    ∧ attachedToOne exampleLoader = true
    ∧ ∃ d2 w2 mid, sceneChangeEvent exampleLoader exampleWorld (sceneUpdate (some 7))
          = some (d2, w2)
        ∧ statusNotifications mid = 0
        ∧ w2.log = exampleWorld.log ++ mid
            ++ (if exampleLoader.m_status = d2.m_status then []
                else [Effect.statusChanged d2.m_status])
        ∧ statusNotifications w2.log
            = statusNotifications exampleWorld.log
              + (if exampleLoader.m_status = d2.m_status then 0 else 1) :=
  ⟨rfl, rfl,
    (setStatus_notifies_on_change exampleLoader exampleWorld Status.Error (sceneUpdate (some 7))
      rfl (Or.inr rfl)).2.2⟩

end QSceneLoader

end Qt3DRender

/-! ## Scene loader: invariants of call sequences -/

namespace Qt3DRender

namespace QSceneLoader

theorem setSource_fields (d : QSceneLoaderPrivate) (w : World) (arg : String) :
    (setSource d w arg).1.m_status = d.m_status
    ∧ (setSource d w arg).1.m_subTreeRoot = d.m_subTreeRoot
    ∧ ((setSource d w arg).2.log = w.log
        ∨ (setSource d w arg).2.log = w.log ++ [Effect.sourceChanged arg]) := by
  unfold setSource
  by_cases h : d.m_source = arg <;> simp [h, World.emit]

theorem loadFinished_of_update (d d2 : QSceneLoaderPrivate) (w w2 : World)
    (e : QScenePropertyChange) (hupd : isSceneUpdate e = true)
    (h : sceneChangeEvent d w e = some (d2, w2)) : loadFinished d2 := by
  obtain ⟨hroot, hst, _⟩ := sceneChangeEvent_update_result d d2 w w2 e hupd h
  unfold loadFinished
  rw [hroot, hst]
  cases e.value.toEntity <;> simp [loadStatus]

theorem loadFinished_step (d d2 : QSceneLoaderPrivate) (w w2 : World) (c : LoaderCall)
    (hd : loadFinished d) (h : stepCall d w c = some (d2, w2)) : loadFinished d2 := by
  cases c with
  | sceneChange e =>
    by_cases hupd : isSceneUpdate e = true
    · exact loadFinished_of_update d d2 w w2 e hupd h
    · have hother := sceneChangeEvent_other d w e (by simpa using hupd)
      simp only [stepCall] at h
      rw [hother] at h
      have h1 : d = d2 := congrArg Prod.fst (Option.some.inj h)
      rw [← h1]; exact hd
  | setSource arg =>
    simp only [stepCall] at h
    have h1 : (setSource d w arg).1 = d2 := congrArg Prod.fst (Option.some.inj h)
    obtain ⟨hst, hroot, _⟩ := setSource_fields d w arg
    unfold loadFinished at hd ⊢
    rw [← h1, hst, hroot]
    exact hd

theorem runCalls_cons (d d2 : QSceneLoaderPrivate) (w w2 : World) (c : LoaderCall)
    (rest : List LoaderCall) (h : runCalls d w (c :: rest) = some (d2, w2)) :
    ∃ d1 w1, stepCall d w c = some (d1, w1) ∧ runCalls d1 w1 rest = some (d2, w2) := by
  simp only [runCalls] at h
  cases hs : stepCall d w c with
  | none => simp [hs] at h
  | some dw =>
    rw [hs] at h
    exact ⟨dw.1, dw.2, rfl, h⟩

theorem loadFinished_runCalls (calls : List LoaderCall) (d d2 : QSceneLoaderPrivate)
    (w w2 : World) (h : runCalls d w calls = some (d2, w2))
    (hseen : loadFinished d
      ∨ ∃ e, LoaderCall.sceneChange e ∈ calls ∧ isSceneUpdate e = true) :
    loadFinished d2 := by
  induction calls generalizing d w with
  | nil =>
    simp only [runCalls] at h
    have h1 : d = d2 := congrArg Prod.fst (Option.some.inj h)
    rcases hseen with hd | ⟨e, he, _⟩
    · rw [← h1]; exact hd
    · cases he
  | cons c rest ih =>
    obtain ⟨d1, w1, hstep, hrest⟩ := runCalls_cons d d2 w w2 c rest h
    rcases hseen with hd | ⟨e, he, hupd⟩
    · exact ih d1 w1 hrest (Or.inl (loadFinished_step d d1 w w1 c hd hstep))
    · rcases List.mem_cons.1 he with hhead | htail
      · subst hhead
        exact ih d1 w1 hrest (Or.inl (loadFinished_of_update d d1 w w1 e hupd hstep))
      · exact ih d1 w1 hrest (Or.inr ⟨e, htail, hupd⟩)

/-- C19: a freshly constructed loader has status Loading and no sub tree; in a
state reached from it by `sceneChangeEvent` (and `setSource`) calls of which at
least one was a "scene" update, the status is Ready or Error, and it is Ready
exactly when a sub tree is attached. -/
theorem status_after_first_load (id : QNodeId) (scene : Option QScene) (w0 w : World)
    (calls : List LoaderCall) (d : QSceneLoaderPrivate)
    (hrun : runCalls (fresh id scene) w0 calls = some (d, w))
    (hseen : ∃ e, LoaderCall.sceneChange e ∈ calls ∧ isSceneUpdate e = true) :
    status (fresh id scene) = Status.Loading
    ∧ (fresh id scene).m_subTreeRoot = none
    ∧ (status d = Status.Ready ∨ status d = Status.Error)
    ∧ status d ≠ Status.Loading
    ∧ (status d = Status.Ready ↔ d.m_subTreeRoot ≠ none) := by
  have hfin := loadFinished_runCalls calls (fresh id scene) d w0 w hrun (Or.inr hseen)
  unfold loadFinished at hfin
  refine ⟨rfl, rfl, hfin.1, ?_, hfin.2⟩
  unfold status
  rcases hfin.1 with h | h <;> rw [h] <;> decide

/-- Witness of C19: a fresh loader in `exampleScene` sees a source change, a load
that fails and a load that delivers the entity 7. -/
theorem status_after_first_load_witness :
    ∃ d w, runCalls (fresh 10 (some exampleScene)) emptyWorld
        [LoaderCall.setSource "a.obj", LoaderCall.sceneChange (sceneUpdate none),
          LoaderCall.sceneChange (sceneUpdate (some 7))] = some (d, w)
      ∧ (status d = Status.Ready ∨ status d = Status.Error)
      ∧ (status d = Status.Ready ↔ d.m_subTreeRoot ≠ none) := by
  obtain ⟨dw, h⟩ : ∃ dw, runCalls (fresh 10 (some exampleScene)) emptyWorld
      [LoaderCall.setSource "a.obj", LoaderCall.sceneChange (sceneUpdate none),
        LoaderCall.sceneChange (sceneUpdate (some 7))] = some dw := ⟨_, rfl⟩
  obtain ⟨d, w⟩ := dw
  have hall := status_after_first_load 10 (some exampleScene) emptyWorld w
    [LoaderCall.setSource "a.obj", LoaderCall.sceneChange (sceneUpdate none),
      LoaderCall.sceneChange (sceneUpdate (some 7))] d h
    ⟨sceneUpdate none, List.mem_cons_of_mem _ (List.mem_cons_self _ _), rfl⟩
  exact ⟨d, w, h, hall.2.2.1, hall.2.2.2.2⟩

end QSceneLoader

end Qt3DRender

/-! ## Scene loader: at most one sub tree is attached -/

namespace Qt3DRender

namespace QSceneLoader

theorem attachedAfter_concat (log : List Effect) (x : Effect) :
    attachedAfter (log ++ [x]) = attachStep (attachedAfter log) x := by
  simp [attachedAfter, List.foldl_append]

theorem oneAttached_deleted (r : Nat) (log : List Effect) (h : oneAttached (some r) log) :
    oneAttached none (log ++ [Effect.deleted r]) := by
  obtain ⟨hpre, hatt, hdel⟩ := h
  have hnew : attachedAfter (log ++ [Effect.deleted r]) = [] := by
    rw [attachedAfter_concat, hatt]
    simp [attachStep]
  refine ⟨?_, by rw [hnew]; rfl, ?_⟩
  · intro pre hp
    rcases List.prefix_concat_iff.1 hp with heq | hlt
    · rw [heq, hnew]; simp
    · exact hpre pre hlt
  · intro n p hn
    right
    rcases List.mem_append.1 hn with hin | hin
    · rcases hdel n p hin with hroot | hd
      · have hnr : r = n := Option.some.inj hroot
        rw [hnr]; simp
      · exact List.mem_append_left _ hd
    · simp at hin

theorem oneAttached_reparented (s : Nat) (parent : NodePtr) (log : List Effect)
    (h : oneAttached none log) : oneAttached (some s) (log ++ [Effect.reparented s parent]) := by
  obtain ⟨hpre, hatt, hdel⟩ := h
  have hnew : attachedAfter (log ++ [Effect.reparented s parent]) = [s] := by
    rw [attachedAfter_concat, hatt]
    simp [attachStep]
  refine ⟨?_, by rw [hnew]; rfl, ?_⟩
  · intro pre hp
    rcases List.prefix_concat_iff.1 hp with heq | hlt
    · rw [heq, hnew]; simp
    · exact hpre pre hlt
  · intro n p hn
    rcases List.mem_append.1 hn with hin | hin
    · rcases hdel n p hin with hroot | hd
      · cases hroot
      · exact Or.inr (List.mem_append_left _ hd)
    · left
      simp only [List.mem_singleton, Effect.reparented.injEq] at hin
      rw [hin.1]

theorem oneAttached_neutral (root : NodePtr) (log : List Effect) (x : Effect)
    (hx : ∀ a, attachStep a x = a) (hnot : ∀ n p, x ≠ Effect.reparented n p)
    (h : oneAttached root log) : oneAttached root (log ++ [x]) := by
  obtain ⟨hpre, hatt, hdel⟩ := h
  have hnew : attachedAfter (log ++ [x]) = attachedAfter log := by
    rw [attachedAfter_concat, hx]
  refine ⟨?_, by rw [hnew]; exact hatt, ?_⟩
  · intro pre hp
    rcases List.prefix_concat_iff.1 hp with heq | hlt
    · rw [heq, hnew]; exact hpre log (List.prefix_refl _)
    · exact hpre pre hlt
  · intro n p hn
    rcases List.mem_append.1 hn with hin | hin
    · rcases hdel n p hin with hroot | hd
      · exact Or.inl hroot
      · exact Or.inr (List.mem_append_left _ hd)
    · exact absurd (List.mem_singleton.1 hin).symm (hnot n p)

theorem oneAttached_dropLog (root : NodePtr) (log : List Effect) (h : oneAttached root log) :
    oneAttached none (log ++ dropLog root) := by
  cases root with
  | none => simpa [dropLog] using h
  | some r => exact oneAttached_deleted r log h

theorem oneAttached_graftLog (subTree parent : NodePtr) (log : List Effect)
    (h : oneAttached none log) : oneAttached subTree (log ++ graftLog subTree parent) := by
  cases subTree with
  | none => simpa [graftLog] using h
  | some s => exact oneAttached_reparented s parent log h

theorem oneAttached_statusLog (root : NodePtr) (old new : Status) (log : List Effect)
    (h : oneAttached root log) : oneAttached root (log ++ statusLog old new) := by
  unfold statusLog
  by_cases hs : old = new
  · simpa [hs] using h
  · simp only [hs, if_false]
    exact oneAttached_neutral root log _ (fun _ => rfl) (fun _ _ hne => by cases hne) h

theorem oneAttached_step (d d2 : QSceneLoaderPrivate) (w w2 : World) (c : LoaderCall)
    (hd : oneAttached d.m_subTreeRoot w.log) (h : stepCall d w c = some (d2, w2)) :
    oneAttached d2.m_subTreeRoot w2.log := by
  cases c with
  | sceneChange e =>
    by_cases hupd : isSceneUpdate e = true
    · obtain ⟨hroot, _, _, _, _, parent, hlog⟩ :=
        sceneChangeEvent_update_result d d2 w w2 e hupd h
      rw [hroot, hlog]
      exact oneAttached_statusLog _ _ _ _
        (oneAttached_graftLog _ parent _ (oneAttached_dropLog _ _ hd))
    · have hother := sceneChangeEvent_other d w e (by simpa using hupd)
      simp only [stepCall] at h
      rw [hother] at h
      have h1 : d = d2 := congrArg Prod.fst (Option.some.inj h)
      have h2 : w = w2 := congrArg Prod.snd (Option.some.inj h)
      rw [← h1, ← h2]; exact hd
  | setSource arg =>
    simp only [stepCall] at h
    have h1 : (setSource d w arg).1 = d2 := congrArg Prod.fst (Option.some.inj h)
    have h2 : (setSource d w arg).2 = w2 := congrArg Prod.snd (Option.some.inj h)
    obtain ⟨_, hroot, hlog⟩ := setSource_fields d w arg
    rw [← h1, ← h2, hroot]
    rcases hlog with hl | hl
    · rw [hl]; exact hd
    · rw [hl]
      exact oneAttached_neutral _ _ _ (fun _ => rfl) (fun _ _ hne => by cases hne) hd

theorem oneAttached_runCalls (calls : List LoaderCall) (d d2 : QSceneLoaderPrivate)
    (w w2 : World) (hd : oneAttached d.m_subTreeRoot w.log)
    (h : runCalls d w calls = some (d2, w2)) : oneAttached d2.m_subTreeRoot w2.log := by
  induction calls generalizing d w with
  | nil =>
    simp only [runCalls] at h
    have h1 : d = d2 := congrArg Prod.fst (Option.some.inj h)
    have h2 : w = w2 := congrArg Prod.snd (Option.some.inj h)
    rw [← h1, ← h2]; exact hd
  | cons c rest ih =>
    obtain ⟨d1, w1, hstep, hrest⟩ := runCalls_cons d d2 w w2 c rest h
    exact ih d1 w1 (oneAttached_step d d1 w w1 c hd hstep) hrest

/-- C11: a loader that holds the sub tree S1 and processes a "scene" update with
the sub tree S2 first deletes S1 and clears its member, and only then re-parents
and stores S2; in every state reached from a fresh loader by "scene" updates,
other changes and `setSource` calls, at every moment of the history at most one
sub tree was attached, the attached one is the one the loader holds, and every
sub tree grafted earlier has been destroyed. -/
theorem one_subtree_at_a_time (d : QSceneLoaderPrivate) (w : World)
    (e : QScenePropertyChange) (S1 S2 : Nat)
    (hupd : isSceneUpdate e = true) (hold : d.m_subTreeRoot = some S1)
    (hnew : e.value.toEntity = some S2) (hone : attachedToOne d = true) :
    ((dropSubTree d w).1.m_subTreeRoot = none
      ∧ (dropSubTree d w).2.log = w.log ++ [Effect.deleted S1])
    ∧ (∃ d2 w2 parent, sceneChangeEvent d w e = some (d2, w2)
        ∧ d2.m_subTreeRoot = some S2
        ∧ status d2 = Status.Ready
        ∧ w2.log = w.log ++ Effect.deleted S1 :: Effect.reparented S2 parent
            :: statusLog d.m_status Status.Ready)
    ∧ ∀ (id : QNodeId) (scene : Option QScene) (parentOf : Nat → NodePtr)
        (calls : List LoaderCall) (d3 : QSceneLoaderPrivate) (w3 : World),
        runCalls (fresh id scene) { parentOf := parentOf, log := [] } calls = some (d3, w3) →
          (∀ pre, pre <+: w3.log → (attachedAfter pre).length ≤ 1)
          ∧ attachedAfter w3.log = d3.m_subTreeRoot.toList
          ∧ ∀ n p, Effect.reparented n p ∈ w3.log →
              d3.m_subTreeRoot = some n ∨ w3.destroyed n = true := by
  refine ⟨?_, ?_, ?_⟩
  · obtain ⟨_, _, _, _, hroot, hlog⟩ := dropSubTree_fields d w
    exact ⟨hroot, by rw [hlog, hold]; rfl⟩
  · obtain ⟨d2, w2, hrun⟩ := sceneChangeEvent_update_returns d w e hupd (Or.inr hone)
    obtain ⟨hroot, hst, _, _, _, parent, hlog⟩ :=
      sceneChangeEvent_update_result d d2 w w2 e hupd hrun
    rw [hnew] at hroot hst hlog
    refine ⟨d2, w2, parent, hrun, hroot, hst, ?_⟩
    have hst2 : d2.m_status = Status.Ready := hst
    rw [hlog, hold, hst2]
    simp [dropLog, graftLog]
  · intro id scene parentOf calls d3 w3 hrun
    have hstart : oneAttached (fresh id scene).m_subTreeRoot
        ({ parentOf := parentOf, log := [] } : World).log := by
      refine ⟨?_, rfl, ?_⟩
      · intro pre hp
        have : pre = [] := List.prefix_nil.1 hp
        rw [this]; simp [attachedAfter]
      · intro n p hn
        simp at hn
    obtain ⟨hpre, hatt, hdel⟩ := oneAttached_runCalls calls _ d3 _ w3 hstart hrun
    refine ⟨hpre, hatt, ?_⟩
    intro n p hn
    rcases hdel n p hn with hroot | hd
    · exact Or.inl hroot
    · right
      unfold World.destroyed
      simpa using hd

/-- Witness of C11: the loader of `exampleLoader` holds the sub tree 3 and receives
the entity 7. -/
theorem one_subtree_at_a_time_witness :
    exampleLoader.m_subTreeRoot = some 3
    ∧ attachedToOne exampleLoader = true
    ∧ ∃ d2 w2 parent,
        sceneChangeEvent exampleLoader exampleWorld (sceneUpdate (some 7)) = some (d2, w2)
        ∧ d2.m_subTreeRoot = some 7
        ∧ status d2 = Status.Ready
        ∧ w2.log = exampleWorld.log ++ Effect.deleted 3 :: Effect.reparented 7 parent
            :: statusLog exampleLoader.m_status Status.Ready :=
  ⟨rfl, rfl,
    (one_subtree_at_a_time exampleLoader exampleWorld (sceneUpdate (some 7)) 3 7
      rfl rfl rfl rfl).2.1⟩

end QSceneLoader

end Qt3DRender

/-! ## Backend peers: the claims -/

namespace Qt3DRender

namespace Render

namespace Geometry

/-- C13: on a Geometry peer with any attribute list, NodeAdded of "attribute" with
the identifier A gives the list followed by A and a dirty peer; NodeRemoved of
"attribute" with A gives the list without any occurrence of A and a dirty peer;
adding A to a fresh peer and removing it again, with `unsetDirty` in between,
gives the empty list, the peer being dirty after each step. -/
theorem attribute_added_removed (g : Geometry) (A : QNodeId) :
    attributes (sceneChangeEvent g
        { type := ChangeFlag.NodeAdded, propertyName := "attribute", value := QVariant.nodeId A })
      = attributes g ++ [A]
    ∧ isDirty (sceneChangeEvent g
        { type := ChangeFlag.NodeAdded, propertyName := "attribute", value := QVariant.nodeId A })
      = true
    ∧ attributes (sceneChangeEvent g
        { type := ChangeFlag.NodeRemoved, propertyName := "attribute", value := QVariant.nodeId A })
      = (attributes g).filter (fun a => decide (a ≠ A))
    ∧ A ∉ attributes (sceneChangeEvent g
        { type := ChangeFlag.NodeRemoved, propertyName := "attribute", value := QVariant.nodeId A })
    ∧ isDirty (sceneChangeEvent g
        { type := ChangeFlag.NodeRemoved, propertyName := "attribute", value := QVariant.nodeId A })
      = true
    ∧ attributes (sceneChangeEvent fresh
        { type := ChangeFlag.NodeAdded, propertyName := "attribute", value := QVariant.nodeId A })
      = [A]
    ∧ attributes (sceneChangeEvent (unsetDirty (sceneChangeEvent fresh
        { type := ChangeFlag.NodeAdded, propertyName := "attribute", value := QVariant.nodeId A }))
        { type := ChangeFlag.NodeRemoved, propertyName := "attribute", value := QVariant.nodeId A })
      = []
    ∧ isDirty (sceneChangeEvent (unsetDirty (sceneChangeEvent fresh
        { type := ChangeFlag.NodeAdded, propertyName := "attribute", value := QVariant.nodeId A }))
        { type := ChangeFlag.NodeRemoved, propertyName := "attribute", value := QVariant.nodeId A })
      = true := by
  simp [sceneChangeEvent, attributes, isDirty, unsetDirty, fresh, QVariant.toNodeId]

/-- C14: on a Geometry peer in any state, NodeUpdated of
"boundingVolumeSpecifierPositionAttribute" with the identifier B makes
`boundingPositionAttribute` equal to B, leaves the dirty flag as it was (a peer
that was not dirty stays not dirty) and leaves the attribute list unchanged. -/
theorem bounding_attribute_updated (g : Geometry) (B : QNodeId) :
    boundingPositionAttribute (sceneChangeEvent g
        { type := ChangeFlag.NodeUpdated
          propertyName := "boundingVolumeSpecifierPositionAttribute"
          value := QVariant.nodeId B }) = B
    ∧ isDirty (sceneChangeEvent g
        { type := ChangeFlag.NodeUpdated
          propertyName := "boundingVolumeSpecifierPositionAttribute"
          value := QVariant.nodeId B }) = isDirty g
    ∧ isDirty (sceneChangeEvent (unsetDirty g)
        { type := ChangeFlag.NodeUpdated
          propertyName := "boundingVolumeSpecifierPositionAttribute"
          value := QVariant.nodeId B }) = false
    ∧ attributes (sceneChangeEvent g
        { type := ChangeFlag.NodeUpdated
          propertyName := "boundingVolumeSpecifierPositionAttribute"
          value := QVariant.nodeId B }) = attributes g := by
  simp [sceneChangeEvent, attributes, isDirty, unsetDirty, boundingPositionAttribute,
    QVariant.toNodeId]

end Geometry

end Render

end Qt3DRender

namespace Qt3DInput

namespace Input

namespace ButtonAxisInput

open Qt3DRender

/-- C15: `cleanup` after initialisation from any frontend snapshot leaves a
Geometry peer and a ButtonAxisInput peer in the state of a freshly constructed
peer (not dirty, no attributes, null bounding position attribute; scale 0, no
buttons, disabled, null source device), and a second `cleanup` changes nothing. -/
theorem cleanup_restores_fresh (g : Render.Geometry) (peer : QGeometry)
    (b : ButtonAxisInput) (frontend : QButtonAxisInput) :
    Render.Geometry.cleanup (Render.Geometry.updateFromPeer g peer) = Render.Geometry.fresh
    ∧ Render.Geometry.cleanup (Render.Geometry.setPeer g peer) = Render.Geometry.fresh
    ∧ Render.Geometry.isDirty (Render.Geometry.cleanup (Render.Geometry.updateFromPeer g peer))
        = false
    ∧ Render.Geometry.attributes
        (Render.Geometry.cleanup (Render.Geometry.updateFromPeer g peer)) = []
    ∧ Render.Geometry.boundingPositionAttribute
        (Render.Geometry.cleanup (Render.Geometry.updateFromPeer g peer)) = 0
    ∧ Render.Geometry.cleanup (Render.Geometry.cleanup g) = Render.Geometry.cleanup g
    ∧ cleanup (simulateInitialization frontend b) = fresh
    ∧ scale (cleanup (simulateInitialization frontend b)) = 0
    ∧ buttons (cleanup (simulateInitialization frontend b)) = []
    ∧ isEnabled (cleanup (simulateInitialization frontend b)) = false
    ∧ sourceDevice (cleanup (simulateInitialization frontend b)) = 0
    ∧ cleanup (cleanup b) = cleanup b := by
  refine ⟨rfl, rfl, rfl, rfl, rfl, rfl, rfl, rfl, rfl, rfl, rfl, rfl⟩

/-- C16: on a ButtonAxisInput peer in any state, a property update named "buttons",
"scale", "enabled" or "sourceDevice" replaces that mirrored field with the payload
and leaves the other fields as they were; the four updates buttons = [64],
scale = 0.5, enabled = true, sourceDevice = D, delivered in this order to a fresh
peer, give the state with exactly these four values. -/
theorem property_updates_mirrored (b : ButtonAxisInput) (v : List Int) (x : Rat)
    (flag : Bool) (D : QNodeId) :
    sceneChangeEvent b (propertyUpdated "buttons" (QVariant.intVector v))
      = { b with m_buttons := v }
    ∧ sceneChangeEvent b (propertyUpdated "scale" (QVariant.float x))
      = { b with m_scale := x }
    ∧ sceneChangeEvent b (propertyUpdated "enabled" (QVariant.boolean flag))
      = { b with m_enabled := flag }
    ∧ sceneChangeEvent b (propertyUpdated "sourceDevice" (QVariant.nodeId D))
      = { b with m_sourceDevice := D }
    ∧ sceneChangeEvent (sceneChangeEvent (sceneChangeEvent (sceneChangeEvent fresh
        (propertyUpdated "buttons" (QVariant.intVector [64])))
        (propertyUpdated "scale" (QVariant.float (1 / 2))))
        (propertyUpdated "enabled" (QVariant.boolean true)))
        (propertyUpdated "sourceDevice" (QVariant.nodeId D))
      = { m_peerId := 0, m_enabled := true, m_buttons := [64], m_scale := 1 / 2,
          m_sourceDevice := D } := by
  simp [sceneChangeEvent, propertyUpdated, fresh, QVariant.toIntVector, QVariant.toFloat,
    QVariant.toBool, QVariant.toNodeId]

/-- C17: initialising a peer from a frontend node copies the mirrored attributes
verbatim.  The peer identifier is the identifier of the frontend node; the
attribute list of a Geometry peer is the list of the identifiers of the frontend
attributes, of the same length and equal at every index, and its bounding
position attribute is the identifier of the position attribute of the bounding
volume specifier; enabled, buttons, scale and source device of a ButtonAxisInput
peer are the frontend values. -/
theorem peer_mirrors_frontend (g : Render.Geometry) (peer : QGeometry)
    (b : ButtonAxisInput) (frontend : QButtonAxisInput) :
    Render.Geometry.peerId (Render.Geometry.setPeer g peer) = peer.id
    ∧ Render.Geometry.attributes (Render.Geometry.setPeer g peer)
        = peer.attributes.map QAttribute.id
    ∧ (Render.Geometry.attributes (Render.Geometry.setPeer g peer)).length
        = peer.attributes.length
    ∧ (∀ i : Nat, (Render.Geometry.attributes (Render.Geometry.setPeer g peer))[i]?
        = (peer.attributes[i]?).map QAttribute.id)
    ∧ Render.Geometry.boundingPositionAttribute (Render.Geometry.setPeer g peer)
        = qIdForNode peer.positionAttribute
    ∧ peerId (simulateInitialization frontend b) = frontend.id
    ∧ isEnabled (simulateInitialization frontend b) = frontend.enabled
    ∧ buttons (simulateInitialization frontend b) = frontend.buttons
    ∧ scale (simulateInitialization frontend b) = frontend.scale
    ∧ sourceDevice (simulateInitialization frontend b) = frontend.sourceDevice := by
  refine ⟨rfl, rfl, ?_, ?_, rfl, rfl, rfl, rfl, rfl, rfl⟩
  · simp [Render.Geometry.attributes, Render.Geometry.setPeer, Render.Geometry.updateFromPeer]
  · intro i
    simp [Render.Geometry.attributes, Render.Geometry.setPeer, Render.Geometry.updateFromPeer]

end ButtonAxisInput

end Input

end Qt3DInput

namespace Qt3DRender

namespace Render

namespace Geometry

end Geometry

end Render

end Qt3DRender

/-! ## Scene loader: changes that are not a "scene" update, and a payload that is
the attached sub tree -/

namespace Qt3DRender

namespace QSceneLoader

/-- C21: `sceneChangeEvent` with a change whose kind is not NodeUpdated, or whose
property name is not "scene", returns the loader and the object tree it was
given: status, source and sub tree are unchanged, no node is deleted or
re-parented and no notification is emitted. -/
theorem sceneChangeEvent_ignores_other (d : QSceneLoaderPrivate) (w : World)
    (e : QScenePropertyChange)
    (hother : e.type ≠ ChangeFlag.NodeUpdated ∨ e.propertyName ≠ "scene") :
    sceneChangeEvent d w e = some (d, w)
    ∧ ∃ d2 w2, sceneChangeEvent d w e = some (d2, w2)
        ∧ status d2 = status d
        ∧ source d2 = source d
        ∧ d2.m_subTreeRoot = d.m_subTreeRoot
        ∧ w2.log = w.log
        ∧ w2.parentOf = w.parentOf
        ∧ (∀ n, w2.destroyed n = w.destroyed n)
        ∧ statusNotifications w2.log = statusNotifications w.log := by
  have hnot : isSceneUpdate e = false := by
    unfold isSceneUpdate
    rcases hother with h | h <;> simp [h]
  have hrun := sceneChangeEvent_other d w e hnot
  exact ⟨hrun, d, w, hrun, rfl, rfl, rfl, rfl, rfl, fun _ => rfl, rfl⟩

/-- Witness of C21: the loader of `exampleLoader` receives a NodeAdded change named
"scene" that carries the entity 7. -/
theorem sceneChangeEvent_ignores_other_witness :
    sceneChangeEvent exampleLoader exampleWorld
        { type := ChangeFlag.NodeAdded, propertyName := "scene",
          value := QVariant.entity (some 7) }
      = some (exampleLoader, exampleWorld) :=
  (sceneChangeEvent_ignores_other exampleLoader exampleWorld
    { type := ChangeFlag.NodeAdded, propertyName := "scene", value := QVariant.entity (some 7) }
    (Or.inl (by decide))).1

/-- C23, evaluated on the code: the loader of `exampleLoader` holds the sub tree 3
and receives a "scene" update whose payload is that same sub tree 3.  The call
deletes node 3, then re-parents it and stores it as sub tree root: the sub tree
that the loader holds afterwards was destroyed during the update. -/
theorem sceneChangeEvent_payload_is_attached_subtree :
    exampleLoader.m_subTreeRoot = some 3
    ∧ exampleWorld.destroyed 3 = false
    ∧ ∃ d2 w2, sceneChangeEvent exampleLoader exampleWorld (sceneUpdate (some 3)) = some (d2, w2)
        ∧ d2.m_subTreeRoot = some 3
        ∧ status d2 = Status.Ready
        ∧ w2.log = [Effect.deleted 3, Effect.reparented 3 (some 200)]
        ∧ w2.destroyed 3 = true :=
  ⟨rfl, rfl,
    (setStatus { (dropSubTree exampleLoader exampleWorld).1 with m_subTreeRoot := some 3 }
      ((dropSubTree exampleLoader exampleWorld).2.setParent 3 (some 200)) Status.Ready).1,
    (setStatus { (dropSubTree exampleLoader exampleWorld).1 with m_subTreeRoot := some 3 }
      ((dropSubTree exampleLoader exampleWorld).2.setParent 3 (some 200)) Status.Ready).2,
    rfl, rfl, rfl, rfl, rfl⟩

end QSceneLoader

end Qt3DRender

/-! ## Service locator: register followed by unregister -/

namespace Qt3D

namespace QServiceLocator

/-- C22: for a key T without a registered provider, `registerServiceProvider(T, P)`
followed by `unregisterServiceProvider(T)` gives back the locator state from
before the two calls: the registry, the override counter, `serviceCount` and
every lookup result are the same. -/
theorem register_unregister_restores (d : QServiceLocatorPrivate) (T : Int)
    (P : ProviderPtr) (habsent : QHash.contains d.m_services T = false) :
    unregisterServiceProvider (registerServiceProvider d T P) T = d
    ∧ (unregisterServiceProvider (registerServiceProvider d T P) T).m_services = d.m_services
    ∧ (unregisterServiceProvider (registerServiceProvider d T P) T).m_nonNullDefaultServices
        = d.m_nonNullDefaultServices
    ∧ serviceCount (unregisterServiceProvider (registerServiceProvider d T P) T)
        = serviceCount d
    ∧ systemInformation (unregisterServiceProvider (registerServiceProvider d T P) T)
        = systemInformation d
    ∧ openGLInformation (unregisterServiceProvider (registerServiceProvider d T P) T)
        = openGLInformation d
    ∧ ∀ key : Int, _q_getServiceHelper (unregisterServiceProvider
        (registerServiceProvider d T P) T) key = _q_getServiceHelper d key := by
  have heq : unregisterServiceProvider (registerServiceProvider d T P) T = d := by
    obtain ⟨services, counter⟩ := d
    have hins : QHash.insert services T P = services ++ [(T, P)] :=
      QHash.insert_of_not_contains _ _ _ habsent
    have hera : QHash.erase services T = services := QHash.erase_of_not_contains _ _ habsent
    have hera2 : QHash.erase (services ++ [(T, P)]) T = services := by
      unfold QHash.erase at hera ⊢
      rw [List.filter_append, hera]
      simp
    unfold unregisterServiceProvider registerServiceProvider
    by_cases hlt : T < DefaultServiceCount <;> simp [hlt, QHash.remove, hins, hera2]
  rw [heq]
  exact ⟨rfl, rfl, rfl, rfl, rfl, rfl, fun _ => rfl⟩

/-- Witness of C22: the reserved key 0 is registered and unregistered while only
key 256 is registered. -/
theorem register_unregister_restores_witness :
    QHash.contains (registerServiceProvider fresh 256 (ProviderPtr.object 5)).m_services 0 = false
    ∧ unregisterServiceProvider (registerServiceProvider
        (registerServiceProvider fresh 256 (ProviderPtr.object 5)) 0 (ProviderPtr.object 7)) 0
      = registerServiceProvider fresh 256 (ProviderPtr.object 5) :=
  ⟨by decide,
    (register_unregister_restores (registerServiceProvider fresh 256 (ProviderPtr.object 5)) 0
      (ProviderPtr.object 7) (by decide)).1⟩

end QServiceLocator

end Qt3D

/-! ## Scene loader: a payload that the teardown has destroyed -/

namespace Qt3DRender

namespace World

theorem ancestorAt_deleteNode (w : World) (root : Nat) (steps node a : Nat)
    (h : (w.deleteNode root).ancestorAt steps node = some a) :
    w.ancestorAt steps node = some a := by
  induction steps generalizing node with
  | zero => simpa [ancestorAt] using h
  | succ k ih =>
    by_cases hn : node = root
    · simp [ancestorAt, deleteNode, hn] at h
    · simp only [ancestorAt, deleteNode, hn, if_false] at h ⊢
      cases hp : w.parentOf node with
      | none => simp [hp] at h
      | some parent =>
        rw [hp] at h
        exact ih parent h

theorem inSubTree_deleteNode (w : World) (root node : Nat) (h : w.inSubTree root node) :
    (w.deleteNode root).inSubTree root node := by
  obtain ⟨steps, hsteps⟩ := h
  induction steps generalizing node with
  | zero => exact ⟨0, by simpa [ancestorAt] using hsteps⟩
  | succ k ih =>
    by_cases hn : node = root
    · exact ⟨0, by simp [ancestorAt, hn]⟩
    · simp only [ancestorAt] at hsteps
      cases hp : w.parentOf node with
      | none => simp [hp] at hsteps
      | some parent =>
        rw [hp] at hsteps
        obtain ⟨k2, hk2⟩ := ih parent hsteps
        have hp2 : (w.deleteNode root).parentOf node = some parent := by
          simp [deleteNode, hn, hp]
        refine ⟨k2 + 1, ?_⟩
        simp only [ancestorAt, hp2]
        exact hk2

/-- The statement `delete root` frees the root and every node below it. -/
theorem freed_deleteNode_inside (w : World) (root node : Nat) (h : w.inSubTree root node) :
    (w.deleteNode root).freed node :=
  ⟨root, by simp [deleteNode], inSubTree_deleteNode w root node h⟩

/-- The statement `delete root` frees no node outside the sub tree of the root. -/
theorem not_freed_deleteNode_outside (w : World) (root node : Nat) (hlive : ¬ w.freed node)
    (hout : ¬ w.inSubTree root node) : ¬ (w.deleteNode root).freed node := by
  rintro ⟨a, hmem, steps, hsteps⟩
  have hchain : w.ancestorAt steps node = some a := ancestorAt_deleteNode w root steps node a hsteps
  simp only [deleteNode, List.mem_append, List.mem_singleton, Effect.deleted.injEq] at hmem
  rcases hmem with hold | hnew
  · exact hlive ⟨a, hold, steps, hchain⟩
  · exact hout ⟨steps, by rw [hchain, hnew]⟩

end World

namespace QSceneLoader

/-- Lines 86 to 89 destroy every node of the sub tree that the loader holds. -/
theorem dropSubTree_frees_held (d : QSceneLoaderPrivate) (w : World) (root node : Nat)
    (hroot : d.m_subTreeRoot = some root) (hin : w.inSubTree root node) :
    (dropSubTree d w).2.freed node := by
  simp only [dropSubTree, hroot]
  exact World.freed_deleteNode_inside w root node hin

/-- Lines 86 to 89 destroy no node outside the sub tree that the loader holds. -/
theorem dropSubTree_keeps_outside (d : QSceneLoaderPrivate) (w : World) (node : Nat)
    (hlive : ¬ w.freed node)
    (hout : ∀ root, d.m_subTreeRoot = some root → ¬ w.inSubTree root node) :
    ¬ (dropSubTree d w).2.freed node := by
  cases hroot : d.m_subTreeRoot with
  | none => simpa [dropSubTree, hroot] using hlive
  | some root =>
    simp only [dropSubTree, hroot]
    exact World.not_freed_deleteNode_outside w root node hlive (hout root hroot)

/-- A "scene" update whose payload is the sub tree that the loader holds, or a
node inside it, uses the payload after it has been freed. -/
theorem graftsFreedNode_of_held (d : QSceneLoaderPrivate) (w : World)
    (e : QScenePropertyChange) (root S : Nat) (hupd : isSceneUpdate e = true)
    (hvalue : e.value.toEntity = some S) (hroot : d.m_subTreeRoot = some root)
    (hin : w.inSubTree root S) : graftsFreedNode d w e :=
  ⟨hupd, S, hvalue, dropSubTree_frees_held d w root S hroot hin⟩

/-- A "scene" update with a live payload S outside the sub tree that the loader
holds, on a loader attached to exactly one entity E: no node is used after it has
been freed, and the call returns with sub tree root S, parent of S equal to E and
status Ready. -/
theorem sceneChangeEvent_graft_live (d : QSceneLoaderPrivate) (w : World)
    (e : QScenePropertyChange) (scene : QScene) (S E : Nat) (parentEntityId : QNodeId)
    (htype : e.type = ChangeFlag.NodeUpdated) (hname : e.propertyName = "scene")
    (hvalue : e.value.toEntity = some S) (hscene : d.m_scene = some scene)
    (hattached : scene.entitiesForComponent d.m_id = [parentEntityId])
    (hlookup : scene.lookupNode parentEntityId = some E) (hentity : scene.isEntity E = true)
    (hlive : ¬ w.freed S)
    (hout : ∀ root, d.m_subTreeRoot = some root → ¬ w.inSubTree root S) :
    ¬ graftsFreedNode d w e
    ∧ ∃ d2 w2, sceneChangeEvent d w e = some (d2, w2)
        ∧ d2.m_subTreeRoot = some S
        ∧ w2.parentOf S = some E
        ∧ status d2 = Status.Ready := by
  constructor
  · rintro ⟨_, S2, hS2, hfreed⟩
    rw [hvalue] at hS2
    cases hS2
    exact dropSubTree_keeps_outside d w S hlive hout hfreed
  · obtain ⟨hsc, hid, _⟩ := scene_dropSubTree d w
    have hrun : sceneChangeEvent d w e
        = some (setStatus { (dropSubTree d w).1 with m_subTreeRoot := some S }
            ((dropSubTree d w).2.setParent S (some E)) Status.Ready) := by
      simp [sceneChangeEvent, htype, hname, hvalue, hsc, hid, hscene, hattached, hlookup,
        QScene.castToEntity, hentity]
    refine ⟨(setStatus { (dropSubTree d w).1 with m_subTreeRoot := some S }
        ((dropSubTree d w).2.setParent S (some E)) Status.Ready).1,
      (setStatus { (dropSubTree d w).1 with m_subTreeRoot := some S }
        ((dropSubTree d w).2.setParent S (some E)) Status.Ready).2, hrun, ?_, ?_, ?_⟩
    · rw [subTreeRoot_setStatus]
    · rw [parentOf_setStatus]
      simp [World.setParent]
    · exact status_setStatus _ _ _

/-- C9, evaluated on the code: the loader of `exampleLoader` is attached to exactly
one entity, holds the live sub tree 3 and receives a NodeUpdated change named
"scene" whose value is that entity 3.  Lines 86 to 89 delete node 3, so that the
`setParent` of line 99 is called on a freed node: the call is a use after free,
with no defined state afterwards.  The same holds for the payload 4, a child of
the held sub tree 3 in `exampleDeepWorld`. -/
theorem sceneChangeEvent_graft_uses_freed_node :
    isSceneUpdate (sceneUpdate (some 3)) = true
    ∧ (sceneUpdate (some 3)).value.toEntity = some 3
    ∧ exampleLoader.m_scene = some exampleScene
    ∧ exampleScene.entitiesForComponent exampleLoader.m_id = [20]
    ∧ exampleScene.castToEntity (exampleScene.lookupNode 20) = some 200
    ∧ exampleLoader.m_subTreeRoot = some 3
    ∧ ¬ exampleWorld.freed 3
    ∧ graftsFreedNode exampleLoader exampleWorld (sceneUpdate (some 3))
    ∧ ¬ exampleDeepWorld.freed 4
    ∧ graftsFreedNode exampleLoader exampleDeepWorld (sceneUpdate (some 4)) := by
  refine ⟨rfl, rfl, rfl, rfl, rfl, rfl, ?_, ?_, ?_, ?_⟩
  · rintro ⟨a, hmem, _⟩
    simp [exampleWorld] at hmem
  · exact graftsFreedNode_of_held exampleLoader exampleWorld (sceneUpdate (some 3)) 3 3
      rfl rfl rfl ⟨0, rfl⟩
  · rintro ⟨a, hmem, _⟩
    simp [exampleDeepWorld] at hmem
  · exact graftsFreedNode_of_held exampleLoader exampleDeepWorld (sceneUpdate (some 4)) 3 4
      rfl rfl rfl ⟨1, rfl⟩

end QSceneLoader

end Qt3DRender
